import Mathlib

/-!
Verification of the rule-based validation engine of the qa_agent repository.

The definitions below are a shallow embedding of
`backend/app/tests/predefined_tests.py` (the rule catalog) and
`backend/app/services/test_executor.py` (the orchestrator).  Python dicts
used as table configurations are embedded as structures; a field of type
`Option (Option String)` models a dict entry where the outer layer records
whether the key is present at all and the inner layer records a value that
may itself be Python `None`.  Calls to external collaborators (BigQuery,
GCS, Vertex AI) are modelled as environment records of `Except`-valued
functions; a Python exception raised by a collaborator is the `.error`
case, and a `try/except` block is a `match` on that value.
-/

/-- Status of one executed rule, as the string literals PASS / FAIL / ERROR. -/
inductive Status where
  | PASS
  | FAIL
  | ERROR
deriving DecidableEq, Repr

/-- A row returned by the query engine, as a map from column name to value
(`execute_query` returns a list of dicts). -/
abbrev QueryRow := List (String × String)

/-- Embedding of the `TestResult` pydantic model (`app/models/requests.py`).
The unused optional `details` field is omitted. -/
structure TestResult where
  test_id : Option String := none
  test_name : String
  category : Option String := none
  description : String
  status : Status
  severity : String
  sql_query : String
  rows_affected : Nat := 0
  error_message : Option String := none
  sample_data : Option (List QueryRow) := none
deriving DecidableEq, Repr

/-- Embedding of the `MappingInfo` pydantic model. -/
structure MappingInfo where
  source : String
  target : String
  file_row_count : Nat
  table_row_count : Nat
deriving DecidableEq, Repr

/-- Embedding of the `AISuggestion` pydantic model. -/
structure AISuggestion where
  test_name : String
  test_category : String
  severity : String
  sql_query : String
  reasoning : String
deriving DecidableEq, Repr

/-- Embedding of the `MappingResult` pydantic model. -/
structure MappingResult where
  mapping_id : String
  mapping_info : Option MappingInfo := none
  predefined_results : List TestResult
  ai_suggestions : List AISuggestion := []
  error : Option String := none
deriving DecidableEq, Repr

/-- The `test_config` dict assembled by `process_mapping` / `process_scd`
and consumed by every `generate_sql` closure.  Fields the SCD path fills
with `mapping.get(...)` values that may be Python `None` are `Option`s. -/
structure SqlConfig where
  full_table_name : String := ""
  primary_key_columns : List String := []
  required_columns : List String := []
  date_columns : List String := []
  numeric_range_checks : List (String × Int × Int) := []
  date_range_checks : List (String × String × String) := []
  foreign_key_checks : List (String × String × String) := []
  pattern_checks : List (String × String) := []
  outlier_columns : List String := []
  primary_keys : List String := []
  surrogate_key : Option String := none
  begin_date_column : Option String := none
  end_date_column : Option String := none
  active_flag_column : Option String := none

/-- Rendering of a possibly-`None` Python value inside an f-string:
`f"{None}"` produces the text `None`. -/
def pyStr : Option String → String
  | none => "None"
  | some s => s

/-- Python truthiness of an optional string (`None` and `""` are falsy). -/
def truthyStr : Option String → Bool
  | none => false
  | some s => !s.isEmpty

/-- Python `x or y` for an optional string and a string default. -/
def orElseStr (x : Option String) (y : String) : String :=
  if truthyStr x then pyStr x else y

/-- Embedding of the `TestTemplate` class of `predefined_tests.py`. -/
structure TestTemplate where
  id : String
  name : String
  category : String
  severity : String
  description : String
  is_global : Bool
  generate_sql : SqlConfig → Option String

/-- Template `table_exists` (category smoke). -/
def tmpl_table_exists : TestTemplate :=
  { id := "table_exists"
    name := "Table exists (smoke)"
    category := "smoke"
    severity := "HIGH"
    description := "Check if the target table exists and has rows"
    is_global := true
    generate_sql := fun config =>
      let t := config.full_table_name
      some s!"SELECT * FROM \x60{t}\x60 LIMIT 1" }

/-- Template `surrogate_key_null`. -/
def tmpl_surrogate_key_null : TestTemplate :=
  { id := "surrogate_key_null"
    name := "Surrogate key NOT NULL"
    category := "completeness"
    severity := "HIGH"
    description := "Ensure surrogate key column has no NULLs"
    is_global := false
    generate_sql := fun config =>
      if truthyStr config.surrogate_key then
        let t := config.full_table_name
        let k := pyStr config.surrogate_key
        some s!"SELECT * FROM \x60{t}\x60 WHERE {k} IS NULL LIMIT 100"
      else none }

/-- Template `surrogate_key_unique`. -/
def tmpl_surrogate_key_unique : TestTemplate :=
  { id := "surrogate_key_unique"
    name := "Surrogate key uniqueness"
    category := "integrity"
    severity := "HIGH"
    description := "Ensure surrogate key column has no duplicates"
    is_global := false
    generate_sql := fun config =>
      if truthyStr config.surrogate_key then
        let t := config.full_table_name
        let k := pyStr config.surrogate_key
        some s!"SELECT {k}, COUNT(*) FROM \x60{t}\x60 GROUP BY 1 HAVING COUNT(*) > 1 LIMIT 100"
      else none }

/-- Template `row_count_match`: its SQL generator always yields `None`;
the rule is handled programmatically by the orchestrator. -/
def tmpl_row_count_match : TestTemplate :=
  { id := "row_count_match"
    name := "Row Count Match"
    category := "completeness"
    severity := "HIGH"
    description := "Verify source and target row counts match"
    is_global := true
    generate_sql := fun _ => none }

/-- Template `no_nulls_required`. -/
def tmpl_no_nulls_required : TestTemplate :=
  { id := "no_nulls_required"
    name := "No NULLs in Required Fields"
    category := "completeness"
    severity := "HIGH"
    description := "Check required columns have no NULL values"
    is_global := true
    generate_sql := fun config =>
      if config.required_columns.isEmpty then none
      else
        let t := config.full_table_name
        let w := String.intercalate " OR "
          (config.required_columns.map (fun col => s!"{col} IS NULL"))
        some s!"SELECT * FROM \x60{t}\x60 WHERE {w} LIMIT 100" }

/-- Template `no_duplicates_pk`. -/
def tmpl_no_duplicates_pk : TestTemplate :=
  { id := "no_duplicates_pk"
    name := "No Duplicate Primary Keys"
    category := "integrity"
    severity := "HIGH"
    description := "Ensure primary key uniqueness"
    is_global := true
    generate_sql := fun config =>
      if config.primary_key_columns.isEmpty then none
      else
        let t := config.full_table_name
        let c := String.intercalate ", " config.primary_key_columns
        some s!"SELECT {c}, COUNT(*) as duplicate_count FROM \x60{t}\x60 GROUP BY {c} HAVING COUNT(*) > 1" }

/-- Template `referential_integrity`. -/
def tmpl_referential_integrity : TestTemplate :=
  { id := "referential_integrity"
    name := "Referential Integrity"
    category := "integrity"
    severity := "HIGH"
    description := "Validate foreign key relationships"
    is_global := false
    generate_sql := fun config =>
      if config.foreign_key_checks.isEmpty then none
      else
        let t := config.full_table_name
        some (String.intercalate " UNION ALL "
          (config.foreign_key_checks.map (fun fk =>
            let c := fk.1
            let rt := fk.2.1
            let rc := fk.2.2
            s!"SELECT \x27{c}\x27 as fk_column, {c} as invalid_value, COUNT(*) as occurrence_count FROM \x60{t}\x60 t WHERE {c} IS NOT NULL AND NOT EXISTS (SELECT 1 FROM \x60{rt}\x60 r WHERE r.{rc} = t.{c}) GROUP BY {c}"))) }

/-- Template `scd_primary_key_null` (note: the catalog key has no digit). -/
def tmpl_scd_primary_key_null : TestTemplate :=
  { id := "scd_primary_key_null"
    name := "Primary Key NOT NULL"
    category := "completeness"
    severity := "HIGH"
    description := "Check composite primary key for NULL values"
    is_global := false
    generate_sql := fun config =>
      if config.primary_keys.isEmpty then none
      else
        let t := config.full_table_name
        let w := String.intercalate " OR "
          (config.primary_keys.map (fun col => s!"{col} IS NULL"))
        some s!"SELECT * FROM \x60{t}\x60 WHERE {w} LIMIT 100" }

/-- Template `scd_primary_key_unique` (note: the catalog key has no digit). -/
def tmpl_scd_primary_key_unique : TestTemplate :=
  { id := "scd_primary_key_unique"
    name := "Primary Key uniqueness"
    category := "integrity"
    severity := "HIGH"
    description := "Check for duplicate primary keys (for SCD1) or non-unique keys in current state"
    is_global := false
    generate_sql := fun config =>
      if config.primary_keys.isEmpty then none
      else
        let t := config.full_table_name
        let c := String.intercalate ", " config.primary_keys
        some s!"SELECT {c}, COUNT(*) as duplicate_count FROM \x60{t}\x60 GROUP BY {c} HAVING COUNT(*) > 1 LIMIT 100" }

/-- The set of strings the SCD SQL treats as an active flag. -/
def activeFlagLiterals : String :=
  "(\x27true\x27, \x27TRUE\x27, \x27Y\x27, \x271\x27)"

/-- Template `scd2_invalid_flag_combination`. -/
def tmpl_scd2_invalid_flag_combination : TestTemplate :=
  { id := "scd2_invalid_flag_combination"
    name := "Invalid active flag/date combination"
    category := "integrity"
    severity := "HIGH"
    description := "Ensure flag matches end date logic"
    is_global := false
    generate_sql := fun config =>
      let t := config.full_table_name
      let f := pyStr config.active_flag_column
      let e := pyStr config.end_date_column
      let lits := activeFlagLiterals
      some s!"SELECT * FROM \x60{t}\x60 WHERE (SAFE_CAST({f} AS STRING) IN {lits} AND CAST({e} AS STRING) NOT LIKE \x272099-12-31%\x27) OR (SAFE_CAST({f} AS STRING) NOT IN {lits} AND CAST({e} AS STRING) LIKE \x272099-12-31%\x27) LIMIT 100" }

/-- Template `scd2_no_record_after_current`. -/
def tmpl_scd2_no_record_after_current : TestTemplate :=
  { id := "scd2_no_record_after_current"
    name := "No records after current record"
    category := "validity"
    severity := "HIGH"
    description := "Ensure no history exists with begin date after current record end date"
    is_global := false
    generate_sql := fun config =>
      let t := config.full_table_name
      let b := pyStr config.begin_date_column
      let f := pyStr config.active_flag_column
      let lits := activeFlagLiterals
      some s!"SELECT * FROM \x60{t}\x60 WHERE {b} > (SELECT MAX({b}) FROM \x60{t}\x60 WHERE SAFE_CAST({f} AS STRING) IN {lits}) AND SAFE_CAST({f} AS STRING) NOT IN {lits} LIMIT 100" }

/-- Template `scd2_begin_date_null`. -/
def tmpl_scd2_begin_date_null : TestTemplate :=
  { id := "scd2_begin_date_null"
    name := "Begin effective datetime NOT NULL"
    category := "completeness"
    severity := "HIGH"
    description := "Check SCD2 begin date for NULL values"
    is_global := false
    generate_sql := fun config =>
      let t := config.full_table_name
      let b := pyStr config.begin_date_column
      some s!"SELECT * FROM \x60{t}\x60 WHERE {b} IS NULL LIMIT 100" }

/-- Template `scd2_end_date_null`. -/
def tmpl_scd2_end_date_null : TestTemplate :=
  { id := "scd2_end_date_null"
    name := "End effective datetime NOT NULL"
    category := "completeness"
    severity := "HIGH"
    description := "Check SCD2 end date for NULL values"
    is_global := false
    generate_sql := fun config =>
      let t := config.full_table_name
      let e := pyStr config.end_date_column
      some s!"SELECT * FROM \x60{t}\x60 WHERE {e} IS NULL LIMIT 100" }

/-- Template `scd2_flag_null`. -/
def tmpl_scd2_flag_null : TestTemplate :=
  { id := "scd2_flag_null"
    name := "Current row flag NOT NULL"
    category := "completeness"
    severity := "HIGH"
    description := "Check SCD2 active flag for NULL values"
    is_global := false
    generate_sql := fun config =>
      let t := config.full_table_name
      let f := pyStr config.active_flag_column
      some s!"SELECT * FROM \x60{t}\x60 WHERE {f} IS NULL LIMIT 100" }

/-- Template `scd2_one_current_row`. -/
def tmpl_scd2_one_current_row : TestTemplate :=
  { id := "scd2_one_current_row"
    name := "One current row per Primary Key"
    category := "integrity"
    severity := "HIGH"
    description := "Ensure exactly one active record per primary key"
    is_global := false
    generate_sql := fun config =>
      let t := config.full_table_name
      let k := String.intercalate " , " config.primary_keys
      let f := pyStr config.active_flag_column
      let lits := activeFlagLiterals
      some s!"SELECT {k}, COUNTIF(SAFE_CAST({f} AS STRING) IN {lits}) as active_count FROM \x60{t}\x60 GROUP BY {k} HAVING active_count <> 1 LIMIT 100" }

/-- Template `scd2_current_date_check`. -/
def tmpl_scd2_current_date_check : TestTemplate :=
  { id := "scd2_current_date_check"
    name := "Current rows end on 2099-12-31"
    category := "validity"
    severity := "HIGH"
    description := "Ensure active rows have the high-watermark end date"
    is_global := false
    generate_sql := fun config =>
      let t := config.full_table_name
      let f := pyStr config.active_flag_column
      let e := pyStr config.end_date_column
      let lits := activeFlagLiterals
      some s!"SELECT * FROM \x60{t}\x60 WHERE SAFE_CAST({f} AS STRING) IN {lits} AND CAST({e} AS STRING) NOT LIKE \x272099-12-31%\x27 LIMIT 100" }

/-- Template `scd2_date_order`. -/
def tmpl_scd2_date_order : TestTemplate :=
  { id := "scd2_date_order"
    name := "Begin < End datetime"
    category := "validity"
    severity := "HIGH"
    description := "Ensure BeginEffDateTime < EndEffDateTime"
    is_global := false
    generate_sql := fun config =>
      let t := config.full_table_name
      let b := pyStr config.begin_date_column
      let e := pyStr config.end_date_column
      some s!"SELECT * FROM \x60{t}\x60 WHERE {b} >= {e} LIMIT 100" }

/-- Template `scd2_unique_begin_date`. -/
def tmpl_scd2_unique_begin_date : TestTemplate :=
  { id := "scd2_unique_begin_date"
    name := "Unique begin datetime per Primary Key"
    category := "integrity"
    severity := "HIGH"
    description := "Ensure no primary key has multiple records starting at the same time"
    is_global := false
    generate_sql := fun config =>
      let t := config.full_table_name
      let k := String.intercalate " , " config.primary_keys
      let b := pyStr config.begin_date_column
      some s!"SELECT {k}, {b}, COUNT(*) as duplicate_count FROM \x60{t}\x60 GROUP BY {k}, {b} HAVING COUNT(*) > 1 LIMIT 100" }

/-- Template `scd2_unique_end_date`. -/
def tmpl_scd2_unique_end_date : TestTemplate :=
  { id := "scd2_unique_end_date"
    name := "Unique end datetime per Primary Key"
    category := "integrity"
    severity := "HIGH"
    description := "Ensure no primary key has multiple records ending at the same time"
    is_global := false
    generate_sql := fun config =>
      let t := config.full_table_name
      let k := String.intercalate " , " config.primary_keys
      let e := pyStr config.end_date_column
      some s!"SELECT {k}, {e}, COUNT(*) as duplicate_count FROM \x60{t}\x60 GROUP BY {k}, {e} HAVING COUNT(*) > 1 LIMIT 100" }

/-- Template `scd2_continuity`. -/
def tmpl_scd2_continuity : TestTemplate :=
  { id := "scd2_continuity"
    name := "Continuous history (no gaps)"
    category := "validity"
    severity := "HIGH"
    description := "Check for gaps or overlaps in SCD history"
    is_global := false
    generate_sql := fun config =>
      let t := config.full_table_name
      let k := String.intercalate ", " config.primary_keys
      let b := pyStr config.begin_date_column
      let e := pyStr config.end_date_column
      some s!"WITH ordered_history AS (SELECT {k}, {b}, {e}, LEAD({b}) OVER (PARTITION BY {k} ORDER BY {b}) as next_begin FROM \x60{t}\x60) SELECT * FROM ordered_history WHERE next_begin IS NOT NULL AND {e} <> next_begin LIMIT 100" }

/-- Template `numeric_range`. -/
def tmpl_numeric_range : TestTemplate :=
  { id := "numeric_range"
    name := "Numeric Range Validation"
    category := "quality"
    severity := "MEDIUM"
    description := "Check numeric values are within expected ranges"
    is_global := false
    generate_sql := fun config =>
      if config.numeric_range_checks.isEmpty then none
      else
        let t := config.full_table_name
        let w := String.intercalate " OR "
          (config.numeric_range_checks.map (fun p =>
            let c := p.1
            let lo := p.2.1
            let hi := p.2.2
            s!"({c} < {lo} OR {c} > {hi})"))
        some s!"SELECT * FROM \x60{t}\x60 WHERE {w} LIMIT 100" }

/-- Template `date_range`. -/
def tmpl_date_range : TestTemplate :=
  { id := "date_range"
    name := "Date Range Validation"
    category := "quality"
    severity := "MEDIUM"
    description := "Validate dates are within expected range"
    is_global := false
    generate_sql := fun config =>
      if config.date_range_checks.isEmpty then none
      else
        let t := config.full_table_name
        let w := String.intercalate " OR "
          (config.date_range_checks.map (fun p =>
            let c := p.1
            let lo := p.2.1
            let hi := p.2.2
            s!"({c} < \x27{lo}\x27 OR {c} > \x27{hi}\x27)"))
        some s!"SELECT * FROM \x60{t}\x60 WHERE {w} LIMIT 100" }

/-- Template `pattern_validation`. -/
def tmpl_pattern_validation : TestTemplate :=
  { id := "pattern_validation"
    name := "Pattern Validation"
    category := "quality"
    severity := "MEDIUM"
    description := "Check string patterns (email, phone, etc.)"
    is_global := false
    generate_sql := fun config =>
      if config.pattern_checks.isEmpty then none
      else
        let t := config.full_table_name
        let w := String.intercalate " OR "
          (config.pattern_checks.map (fun p =>
            let c := p.1
            let pat := p.2
            s!"NOT REGEXP_CONTAINS(CAST({c} AS STRING), r\x27{pat}\x27)"))
        some s!"SELECT * FROM \x60{t}\x60 WHERE {w} LIMIT 100" }

/-- Template `outlier_detection`. -/
def tmpl_outlier_detection : TestTemplate :=
  { id := "outlier_detection"
    name := "Statistical Outlier Detection"
    category := "statistical"
    severity := "LOW"
    description := "Detect statistical outliers using standard deviation"
    is_global := false
    generate_sql := fun config =>
      match config.outlier_columns.head? with
      | none => none
      | some c =>
        let t := config.full_table_name
        some s!"WITH stats AS (SELECT AVG({c}) as mean, STDDEV({c}) as stddev FROM \x60{t}\x60 WHERE {c} IS NOT NULL) SELECT t.* FROM \x60{t}\x60 t, stats WHERE ABS(t.{c} - stats.mean) > 3 * stats.stddev LIMIT 100" }

/-- The `PREDEFINED_TESTS` registry, as the insertion-ordered association
list of the Python dict literal. -/
def PREDEFINED_TESTS : List (String × TestTemplate) :=
  [ ("table_exists", tmpl_table_exists)
  , ("surrogate_key_null", tmpl_surrogate_key_null)
  , ("surrogate_key_unique", tmpl_surrogate_key_unique)
  , ("row_count_match", tmpl_row_count_match)
  , ("no_nulls_required", tmpl_no_nulls_required)
  , ("no_duplicates_pk", tmpl_no_duplicates_pk)
  , ("referential_integrity", tmpl_referential_integrity)
  , ("scd_primary_key_null", tmpl_scd_primary_key_null)
  , ("scd_primary_key_unique", tmpl_scd_primary_key_unique)
  , ("scd2_invalid_flag_combination", tmpl_scd2_invalid_flag_combination)
  , ("scd2_no_record_after_current", tmpl_scd2_no_record_after_current)
  , ("scd2_begin_date_null", tmpl_scd2_begin_date_null)
  , ("scd2_end_date_null", tmpl_scd2_end_date_null)
  , ("scd2_flag_null", tmpl_scd2_flag_null)
  , ("scd2_one_current_row", tmpl_scd2_one_current_row)
  , ("scd2_current_date_check", tmpl_scd2_current_date_check)
  , ("scd2_date_order", tmpl_scd2_date_order)
  , ("scd2_unique_begin_date", tmpl_scd2_unique_begin_date)
  , ("scd2_unique_end_date", tmpl_scd2_unique_end_date)
  , ("scd2_continuity", tmpl_scd2_continuity)
  , ("numeric_range", tmpl_numeric_range)
  , ("date_range", tmpl_date_range)
  , ("pattern_validation", tmpl_pattern_validation)
  , ("outlier_detection", tmpl_outlier_detection) ]

/-- Membership test for the registry (Python `test_id in PREDEFINED_TESTS`). -/
def inPredefined (test_id : String) : Bool :=
  (PREDEFINED_TESTS.map Prod.fst).contains test_id

/-- Embedding of `get_enabled_tests` (`predefined_tests.py`): an empty id
list selects the globally-enabled templates; otherwise each listed id is
looked up and unknown ids are silently dropped. -/
def get_enabled_tests (enabled_test_ids : List String) : List TestTemplate :=
  if enabled_test_ids.isEmpty then
    (PREDEFINED_TESTS.map Prod.snd).filter (fun t => t.is_global)
  else
    enabled_test_ids.filterMap (fun test_id =>
      if inPredefined test_id then
        (PREDEFINED_TESTS.lookup test_id)
      else none)

/-- Embedding of the rule-id auto-selection block of `process_scd`
(`test_executor.py` lines 298-320), starting from an empty list. -/
def scdAutoSelectIds (surrogate_key : Option String) (scd_type : String) : List String :=
  ["table_exists"]
  ++ (if truthyStr surrogate_key then
        ["surrogate_key_null", "surrogate_key_unique"] else [])
  ++ (if scd_type = "scd1" then
        ["scd1_primary_key_null", "scd1_primary_key_unique"]
      else if scd_type = "scd2" then
        [ "surrogate_key_null", "surrogate_key_unique"
        , "scd2_primary_key_null"
        , "scd2_begin_date_null", "scd2_end_date_null", "scd2_flag_null"
        , "scd2_one_current_row", "scd2_current_date_check"
        , "scd2_invalid_flag_combination", "scd2_date_order"
        , "scd2_unique_begin_date", "scd2_unique_end_date"
        , "scd2_continuity", "scd2_no_record_after_current" ]
      else [])

/-- One field of a BigQuery table schema, as used by `process_mapping`. -/
structure SchemaField where
  name : String
  type : String
  mode : String
deriving DecidableEq, Repr

/-- Table metadata returned by `bigquery_service.get_table_metadata`. -/
structure TableMeta where
  schema : List SchemaField
deriving DecidableEq, Repr

/-- A custom-test row fetched by `bigquery_service.get_active_custom_tests`
for the `process_mapping` path.  `sql_query` is taken as present (the
missing-key `KeyError` path is not exercised by any claim). -/
structure CustomTest where
  test_name : Option String := none
  test_category : Option String := none
  description : Option String := none
  severity : Option String := none
  sql_query : String
deriving Repr

/-- The raw mapping configuration consumed by `process_mapping`.  The
`target_dataset` / `target_table` keys are required by the config-table
schema and embedded as plain strings; the JSON-string variants of the
check fields (parsed with `json.loads` in the source) are embedded in
their already-parsed form. -/
structure Mapping where
  mapping_id : Option String := none
  target_dataset : String
  target_table : String
  source_project : Option String := none
  source_dataset : Option String := none
  source_table : Option String := none
  source_bucket : Option String := none
  source_file_path : Option String := none
  primary_key_columns : List String := []
  required_columns : List String := []
  date_columns : List String := []
  numeric_range_checks : List (String × Int × Int) := []
  date_range_checks : List (String × String × String) := []
  foreign_key_checks : List (String × String × String) := []
  pattern_checks : List (String × String) := []
  outlier_columns : List String := []
  enabled_test_ids : List String := []
  auto_suggest : Bool := true

/-- Environment of external collaborators for `process_mapping`. -/
structure MapEnv where
  bq_row_count : String → Except String Nat
  table_metadata : String → Except String TableMeta
  resolve_pattern : String → String → Except String (List String)
  count_csv_rows : String → String → Except String Nat
  execute_query : String → Except String (List QueryRow)
  active_custom_tests : String → String → String → Except String (List CustomTest)
  get_sample_data : String → Nat → Except String (List QueryRow)
  sample_csv_data : String → String → Nat → Except String (List QueryRow)
  generate_test_suggestions : Except String (List AISuggestion)

/-- The `is_bq_source = bool(source_dataset and source_table)` check. -/
def mappingIsBqSource (m : Mapping) : Bool :=
  truthyStr m.source_dataset && truthyStr m.source_table

/-- The fully-qualified target table name built by `process_mapping`. -/
def fullTargetName (pid : String) (m : Mapping) : String :=
  let d := m.target_dataset
  let t := m.target_table
  s!"{pid}.{d}.{t}"

/-- The fully-qualified source table name for a BQ-to-BQ mapping
(`src_proj = source_project or project_id`). -/
def mappingFullSourceName (pid : String) (m : Mapping) : String :=
  let sp := orElseStr m.source_project pid
  let d := pyStr m.source_dataset
  let t := pyStr m.source_table
  s!"{sp}.{d}.{t}"

/-- Outcome of the source-resolution phase of `process_mapping`. -/
structure SourceInfo where
  file_row_count : Nat
  source_description : String
  bq_full_source : Option String
  gcs_bucket_path : Option (String × String)
deriving Repr

/-- The source-resolution phase of `process_mapping` (lines 35-71): a BQ
source is counted directly; a GCS source requires bucket and path, has its
wildcard pattern resolved (taking `matching_files[0]`, an `IndexError`
when no file matches), and is then row-counted. -/
def sourceResolution (pid : String) (env : MapEnv) (m : Mapping) :
    Except String SourceInfo :=
  if mappingIsBqSource m then
    let full := mappingFullSourceName pid m
    match env.bq_row_count full with
    | .error e => .error e
    | .ok n =>
      .ok { file_row_count := n
            source_description := full
            bq_full_source := some full
            gcs_bucket_path := none }
  else
    if !truthyStr m.source_bucket || !truthyStr m.source_file_path then
      let mid := m.mapping_id.getD "unknown"
      .error s!"Mapping {mid} missing source info (GCS or BQ)"
    else
      let bucket := pyStr m.source_bucket
      let path := pyStr m.source_file_path
      match env.resolve_pattern bucket path with
      | .error e => .error e
      | .ok files =>
        match files.head? with
        | none => .error "IndexError: list index out of range"
        | some actual =>
          match env.count_csv_rows bucket actual with
          | .error e => .error e
          | .ok n =>
            .ok { file_row_count := n
                  source_description := s!"gs://{bucket}/{actual}"
                  bq_full_source := none
                  gcs_bucket_path := some (bucket, actual) }

/-- Primary-key inference from schema metadata (`process_mapping` line 81). -/
def inferredPrimaryKeys (meta : TableMeta) (target_table : String) : List String :=
  (meta.schema.filter (fun col =>
    ["id", "key", "uuid", "guid", target_table ++ "_id"].contains col.name.toLower)).map
    (fun col => col.name)

/-- The `test_config` dict built by `process_mapping` (lines 79-98). -/
def mappingTestConfig (m : Mapping) (meta : TableMeta)
    (target_table full_target_name : String) : SqlConfig :=
  { full_table_name := full_target_name
    primary_key_columns :=
      if m.primary_key_columns.isEmpty then inferredPrimaryKeys meta target_table
      else m.primary_key_columns
    required_columns :=
      if m.required_columns.isEmpty then
        (meta.schema.filter (fun col => col.mode = "REQUIRED")).map (fun col => col.name)
      else m.required_columns
    date_columns := m.date_columns
    numeric_range_checks := m.numeric_range_checks
    date_range_checks := m.date_range_checks
    foreign_key_checks := m.foreign_key_checks
    pattern_checks := m.pattern_checks
    outlier_columns :=
      if m.outlier_columns.isEmpty then
        (meta.schema.filter (fun col =>
          ["INTEGER", "FLOAT", "NUMERIC", "BIGNUMERIC"].contains col.type)).map
          (fun col => col.name)
      else m.outlier_columns }

/-- Absolute difference of two counts, as Python `abs(a - b)` on ints. -/
def natAbsDiff (a b : Nat) : Nat := Int.natAbs ((a : Int) - (b : Int))

/-- The row-count pseudo-rule result built programmatically by
`process_mapping` (lines 110-120), outside the `generate_sql` path. -/
def rowCountResult (is_bq_source : Bool) (file_row_count bq_row_count : Nat) : TestResult :=
  let srcKind := if is_bq_source then "BQ" else "GCS"
  let d := natAbsDiff file_row_count bq_row_count
  { test_id := some "row_count_match"
    test_name := "Row Count Match"
    category := some "completeness"
    description := s!"Source ({srcKind}): {file_row_count} rows, Target: {bq_row_count} rows"
    status := if file_row_count = bq_row_count then .PASS else .FAIL
    severity := "HIGH"
    sql_query := ""
    rows_affected := d
    error_message :=
      if file_row_count ≠ bq_row_count then
        some s!"Row count mismatch: {d} rows difference"
      else none
    sample_data := none }

/-- The `run_predefined_test` closure of `process_mapping` (lines 123-161):
skips the row-count rule and empty predicates, applies the uniform
zero-rows-pass convention, and degrades a query fault to ERROR. -/
def runPredefinedTestMapping (env : MapEnv) (cfg : SqlConfig) (t : TestTemplate) :
    Option TestResult :=
  if t.id = "row_count_match" then none
  else
    match t.generate_sql cfg with
    | none => none
    | some sql =>
      if sql.isEmpty then none
      else
        match env.execute_query sql with
        | .ok rows =>
          let row_count := rows.length
          some { test_id := some t.id
                 test_name := t.name
                 category := some t.category
                 description := t.description
                 status := if row_count = 0 then .PASS else .FAIL
                 severity := t.severity
                 sql_query := sql
                 rows_affected := row_count
                 sample_data := if row_count > 0 then some (rows.take 10) else none
                 error_message := none }
        | .error e =>
          some { test_id := some t.id
                 test_name := t.name
                 category := some t.category
                 description := t.description
                 status := .ERROR
                 severity := t.severity
                 sql_query := sql
                 rows_affected := 0
                 error_message := some e
                 sample_data := none }

/-- The `run_custom_test` closure of `process_mapping` (lines 163-193). -/
def runCustomTestMapping (env : MapEnv) (ct : CustomTest) : TestResult :=
  let sql := ct.sql_query
  let nm := ct.test_name.getD "unknown"
  let nm2 := ct.test_name.getD "Custom Test"
  match env.execute_query sql with
  | .ok rows =>
    let row_count := rows.length
    { test_id := some s!"custom_{nm}"
      test_name := s!"[Custom] {nm2}"
      category := some (ct.test_category.getD "custom")
      description := ct.description.getD ""
      status := if row_count = 0 then .PASS else .FAIL
      severity := ct.severity.getD "HIGH"
      sql_query := sql
      rows_affected := row_count
      sample_data := if row_count > 0 then some (rows.take 10) else none
      error_message := none }
  | .error e =>
    { test_id := some s!"custom_error_{nm}"
      test_name := s!"[Custom] {nm2}"
      category := some "custom"
      description := s!"Error executing custom test: {e}"
      status := .ERROR
      severity := "HIGH"
      sql_query := sql
      rows_affected := 0
      error_message := some e
      sample_data := none }

/-- The AI-suggestion block of `process_mapping` (lines 216-245): source
sample, target sample and suggestion generation in sequence, with every
fault swallowed into an empty suggestion list. -/
def aiSuggestionsFor (env : MapEnv) (info : SourceInfo) (full_target_name : String) :
    List AISuggestion :=
  let fetched : Except String (List AISuggestion) :=
    match (match info.gcs_bucket_path with
           | some bp => env.sample_csv_data bp.1 bp.2 5
           | none => env.get_sample_data (pyStr info.bq_full_source) 5) with
    | .error e => .error e
    | .ok _ =>
      match env.get_sample_data full_target_name 5 with
      | .error e => .error e
      | .ok _ => env.generate_test_suggestions
  match fetched with
  | .ok l => l
  | .error _ => []

/-- Body of `process_mapping` inside its outer `try` (lines 29-257). -/
def processMappingBody (pid : String) (env : MapEnv) (m : Mapping) :
    Except String MappingResult :=
  let mapping_id := m.mapping_id.getD "unknown"
  let full_target_name := fullTargetName pid m
  match sourceResolution pid env m with
  | .error e => .error e
  | .ok info =>
    match env.bq_row_count full_target_name with
    | .error e => .error e
    | .ok bq_row_count =>
      match env.table_metadata full_target_name with
      | .error e => .error e
      | .ok meta =>
        let test_config := mappingTestConfig m meta m.target_table full_target_name
        let enabled_tests := get_enabled_tests m.enabled_test_ids
        let rc := rowCountResult (mappingIsBqSource m) info.file_row_count bq_row_count
        let custom :=
          match env.active_custom_tests pid m.target_dataset m.target_table with
          | .ok l => l
          | .error _ => []
        let results :=
          rc :: (enabled_tests.filterMap (runPredefinedTestMapping env test_config)
                 ++ custom.map (runCustomTestMapping env))
        let ai := if m.auto_suggest then aiSuggestionsFor env info full_target_name else []
        .ok { mapping_id := mapping_id
              mapping_info := some
                { source := info.source_description
                  target := full_target_name
                  file_row_count := info.file_row_count
                  table_row_count := bq_row_count }
              predefined_results := results
              ai_suggestions := ai
              error := none }

/-- Embedding of `TestExecutor.process_mapping`: the catch-all handler
(lines 259-266) converts any escaped fault into a `MappingResult` whose
`error` field is set and whose result list is empty. -/
def processMapping (pid : String) (env : MapEnv) (m : Mapping) : MappingResult :=
  match processMappingBody pid env m with
  | .ok r => r
  | .error e =>
    { mapping_id := m.mapping_id.getD "unknown"
      mapping_info := none
      predefined_results := []
      ai_suggestions := []
      error := some e }

/-- A custom business-rule entry of an SCD mapping (`process_scd`
lines 362-395).  Each field mirrors one `.get` key of the source dict. -/
structure ScdCustomTest where
  name : Option String := none
  test_name : Option String := none
  sql : Option String := none
  sql_query : Option String := none
  description : Option String := none
  severity : Option String := none

/-- The raw mapping configuration consumed by `process_scd`.  The three
temporal column fields are double optionals: the outer `Option` is dict
key presence, the inner one a value that may be Python `None` — this is
what distinguishes the direct path (key absent, `.get` default applies)
from the batch path (key present holding `None`, default defeated). -/
structure ScdMapping where
  mapping_id : Option String := none
  target_dataset : String
  target_table : String
  scd_type : Option String := none
  primary_keys : List String := []
  surrogate_key : Option String := none
  begin_date_column : Option (Option String) := none
  end_date_column : Option (Option String) := none
  active_flag_column : Option (Option String) := none
  enabled_test_ids : Option (List String) := none
  custom_tests : List ScdCustomTest := []

/-- Environment of external collaborators for `process_scd`.  The fetched
table metadata is never inspected by `process_scd`, so its payload is
`Unit`; only success or failure matters. -/
structure ScdEnv where
  table_metadata : String → Except String Unit
  execute_query : String → Except String (List QueryRow)
  bq_row_count : String → Except String Nat

/-- Python `dict.get(key, default)` on a double-optional entry: the
default applies only when the key is absent, not when it holds `None`. -/
def dictGetD (entry : Option (Option String)) (dflt : String) : Option String :=
  match entry with
  | none => some dflt
  | some v => v

/-- The `mapping_id` default of `process_scd` (line 276). -/
def scdMappingId (m : ScdMapping) : String :=
  m.mapping_id.getD (m.target_table ++ "_scd")

/-- The fully-qualified table name built by `process_scd` (line 285). -/
def scdFullTableName (pid : String) (m : ScdMapping) : String :=
  let d := m.target_dataset
  let t := m.target_table
  s!"{pid}.{d}.{t}"

/-- The `test_config` dict built by `process_scd` (lines 289-296),
including the temporal-column defaults of the fixed convention. -/
def scdTestConfig (pid : String) (m : ScdMapping) : SqlConfig :=
  { full_table_name := scdFullTableName pid m
    primary_keys := m.primary_keys
    surrogate_key := m.surrogate_key
    begin_date_column := dictGetD m.begin_date_column "DWBeginEffDateTime"
    end_date_column := dictGetD m.end_date_column "DWEndEffDateTime"
    active_flag_column := dictGetD m.active_flag_column "DWCurrentRowFlag" }

/-- The rule-id selection step of `process_scd` (lines 299-321), including
its observable effect on the caller's mapping dict: when the mapping holds
an (aliased) empty list, the auto-selected ids are appended to it in
place; when the key is absent, `.get` produced a fresh list and the
mutation is invisible; a non-empty list is used as given. -/
def scdSelection (m : ScdMapping) : List String × ScdMapping :=
  let auto := scdAutoSelectIds m.surrogate_key (m.scd_type.getD "scd2")
  match m.enabled_test_ids with
  | none => (auto, m)
  | some l =>
    if l.isEmpty then (auto, { m with enabled_test_ids := some auto })
    else (l, m)

/-- The `run_predefined_test` closure of `process_scd` (lines 325-360):
smoke rules invert the verdict, `rows_affected` is zeroed on PASS, sample
rows attach only to non-smoke FAILs, and a query fault degrades to ERROR. -/
def runPredefinedTestScd (env : ScdEnv) (cfg : SqlConfig) (t : TestTemplate) :
    Option TestResult :=
  match t.generate_sql cfg with
  | none => none
  | some sql =>
    if sql.isEmpty then none
    else
      match env.execute_query sql with
      | .ok rows =>
        let row_count := rows.length
        let is_smoke := t.category = "smoke"
        let status : Status :=
          if (if is_smoke then row_count > 0 else row_count = 0) then .PASS else .FAIL
        some { test_id := some t.id
               test_name := t.name
               category := some t.category
               description := t.description
               status := status
               severity := t.severity
               sql_query := sql
               rows_affected := if status = .PASS then 0 else row_count
               sample_data :=
                 if status = .FAIL && !is_smoke then some (rows.take 10) else none
               error_message := none }
      | .error e =>
        some { test_id := some t.id
               test_name := t.name
               category := some t.category
               description := t.description
               status := .ERROR
               severity := t.severity
               sql_query := sql
               rows_affected := 0
               error_message := some e
               sample_data := none }

/-- Name fallback chain of an SCD custom rule (line 364). -/
def scdCustomName (ct : ScdCustomTest) : String :=
  if truthyStr ct.name then pyStr ct.name
  else ct.test_name.getD "Unnamed Business Rule"

/-- The `run_custom_test` closure of `process_scd` (lines 363-395),
with the `\x7b\x7btarget\x7d\x7d` placeholder substituted by the
backticked table name. -/
def runCustomTestScd (env : ScdEnv) (full_table_name : String) (ct : ScdCustomTest) :
    Option TestResult :=
  let name := scdCustomName ct
  let raw_sql := if truthyStr ct.sql then ct.sql else ct.sql_query
  if !truthyStr raw_sql then none
  else
    let target := s!"\x60{full_table_name}\x60"
    let sql := (pyStr raw_sql).replace "\x7b\x7btarget\x7d\x7d" target
    let slug := (name.toLower).replace " " "_"
    match env.execute_query sql with
    | .ok rows =>
      let row_count := rows.length
      some { test_id := some s!"custom_{slug}"
             test_name := name
             category := some "business_rule"
             description := ct.description.getD s!"Custom business rule: {name}"
             status := if row_count = 0 then .PASS else .FAIL
             severity := ct.severity.getD "HIGH"
             sql_query := sql
             rows_affected := row_count
             sample_data := if row_count > 0 then some (rows.take 10) else none
             error_message := none }
    | .error e =>
      some { test_id := some s!"custom_{slug}"
             test_name := name
             category := some "business_rule"
             description := s!"Error executing custom rule: {name}"
             status := .ERROR
             severity := ct.severity.getD "HIGH"
             sql_query := sql
             rows_affected := 0
             error_message := some e
             sample_data := none }

/-- Embedding of `TestExecutor.process_scd` together with the state of the
caller's mapping dict after the call.  Inside the outer `try` only the
metadata fetch (line 286) can raise — every later collaborator call is
individually guarded — so the catch-all of lines 431-438 reduces to a
`match` on it; the selection step's mutation happens only when that fetch
succeeded. -/
def processScdFull (pid : String) (env : ScdEnv) (m : ScdMapping) :
    MappingResult × ScdMapping :=
  let mapping_id := scdMappingId m
  let full := scdFullTableName pid m
  match env.table_metadata full with
  | .error e =>
    ({ mapping_id := mapping_id
       mapping_info := none
       predefined_results := []
       ai_suggestions := []
       error := some e }, m)
  | .ok _ =>
    let test_config := scdTestConfig pid m
    let sel := scdSelection m
    let enabled_tests := get_enabled_tests sel.1
    let predefined_results :=
      enabled_tests.filterMap (runPredefinedTestScd env test_config)
      ++ m.custom_tests.filterMap (runCustomTestScd env full)
    let bq_row_count :=
      match env.bq_row_count full with
      | .ok n => n
      | .error _ => 0
    let d := m.target_dataset
    let t := m.target_table
    ({ mapping_id := mapping_id
       mapping_info := some
         { source := "SCD Validation"
           target := s!"{d}.{t}"
           file_row_count := 0
           table_row_count := bq_row_count }
       predefined_results := predefined_results
       ai_suggestions := []
       error := none }, sel.2)

/-- The `MappingResult` returned by `process_scd`. -/
def processScd (pid : String) (env : ScdEnv) (m : ScdMapping) : MappingResult :=
  (processScdFull pid env m).1

/-- A row of the `scd_validation_config` table (schema created by
`bigquery_service.ensure_config_tables`): the three temporal columns and
the surrogate key are NULLABLE, `target_dataset` / `target_table` /
`scd_type` are REQUIRED. -/
structure ScdConfig where
  config_id : Option String := none
  target_dataset : String
  target_table : String
  scd_type : String := "scd2"
  primary_keys : List String := []
  surrogate_key : Option String := none
  begin_date_column : Option String := none
  end_date_column : Option String := none
  active_flag_column : Option String := none
  custom_tests : List ScdCustomTest := []

/-- The mapping dict built from one config row by
`process_scd_config_table` (lines 460-473).  Every temporal-column key is
inserted explicitly — present even when its value is `None` — while
`enabled_test_ids` is never inserted. -/
def configToMapping (c : ScdConfig) : ScdMapping :=
  { mapping_id := some (c.config_id.getD (c.target_table ++ "_scd"))
    target_dataset := c.target_dataset
    target_table := c.target_table
    scd_type := some c.scd_type
    primary_keys := c.primary_keys
    surrogate_key := c.surrogate_key
    begin_date_column := some c.begin_date_column
    end_date_column := some c.end_date_column
    active_flag_column := some c.active_flag_column
    enabled_test_ids := none
    custom_tests := c.custom_tests }

/-- The summary dict computed by `process_scd_config_table` (lines 481-504). -/
structure BatchSummary where
  total_mappings : Nat
  total_tests : Nat
  passed : Nat
  failed : Nat
  errors : Nat
  total_suggestions : Nat
deriving DecidableEq, Repr

/-- Per-result tally of one status (`len([t for t in r.predefined_results
if t.status == s])`). -/
def countStatus (s : Status) (r : MappingResult) : Nat :=
  (r.predefined_results.filter (fun t => t.status = s)).length

/-- The summary over a list of results, exactly as lines 482-503 sum the
per-result counts. -/
def batchSummaryOf (results : List MappingResult) : BatchSummary :=
  { total_mappings := results.length
    total_tests := (results.map (fun r => r.predefined_results.length)).sum
    passed := (results.map (countStatus .PASS)).sum
    failed := (results.map (countStatus .FAIL)).sum
    errors := (results.map (countStatus .ERROR)).sum
    total_suggestions := 0 }

/-- The payload returned by `process_scd_config_table`. -/
structure BatchPayload where
  summary : BatchSummary
  results_by_mapping : List MappingResult
deriving Repr

/-- Embedding of `TestExecutor.process_scd_config_table` (lines 440-512):
a config-read fault or an empty config table re-raises to the caller;
otherwise every config row becomes a mapping and is processed by
`process_scd`, and the summary is folded over the gathered results
(`asyncio.gather` preserves input order). -/
def processScdConfigTable (pid : String) (env : ScdEnv)
    (scd_configs_read : Except String (List ScdConfig)) :
    Except String BatchPayload :=
  match scd_configs_read with
  | .error e => .error e
  | .ok scd_configs =>
    if scd_configs.isEmpty then
      .error "No SCD configurations found in config table"
    else
      let mappings := scd_configs.map configToMapping
      let results := mappings.map (processScd pid env)
      .ok { summary := batchSummaryOf results
            results_by_mapping := results }

/-- A row of a versioned (SCD2) table, restricted to the columns the two
windowed predicates read: the natural key (a multi-column key tuple is
embedded as one value), the begin and end dates (as comparable instants)
and the active flag (a string, as `SAFE_CAST(flag AS STRING)` sees it). -/
structure ScdRow where
  key : Nat
  begin_date : Nat
  end_date : Nat
  active_flag : String
deriving DecidableEq, Repr

/-- The flag test `SAFE_CAST(flag AS STRING) IN (\x27true\x27, \x27TRUE\x27,
\x27Y\x27, \x271\x27)` used by every SCD2 predicate. -/
def isActiveFlag (s : String) : Bool :=
  ["true", "TRUE", "Y", "1"].contains s

/-- The `ORDER BY begin_date` relation of the continuity window. -/
def beginLE (a b : ScdRow) : Prop := a.begin_date ≤ b.begin_date

instance : DecidableRel beginLE := fun a b => Nat.decLe a.begin_date b.begin_date

instance : IsTotal ScdRow beginLE := ⟨fun a b => Nat.le_total a.begin_date b.begin_date⟩

instance : IsTrans ScdRow beginLE := ⟨fun _ _ _ => Nat.le_trans⟩

/-- The distinct key values of a table, in first-appearance order (the
partitions of `PARTITION BY key`). -/
def keyList (rows : List ScdRow) : List Nat :=
  (rows.map (fun r => r.key)).dedup

/-- The partition of a table for one key value. -/
def keyPartition (rows : List ScdRow) (k : Nat) : List ScdRow :=
  rows.filter (fun r => r.key = k)

/-- A partition ordered by `begin_date`, as the window `ORDER BY` does. -/
def sortByBegin (l : List ScdRow) : List ScdRow :=
  l.insertionSort beginLE

/-- `LEAD(begin_date) OVER (...)`: each row of an ordered partition paired
with the begin date of the following row, `none` for the last row. -/
def leadBegin : List ScdRow → List (ScdRow × Option Nat)
  | [] => []
  | r :: rest => (r, rest.head?.map (fun s => s.begin_date)) :: leadBegin rest

/-- The `ordered_history` CTE of the `scd2_continuity` predicate: every
partition ordered by begin date and annotated with its lead begin date. -/
def scd2ContinuityCTE (rows : List ScdRow) : List (ScdRow × Option Nat) :=
  (keyList rows).flatMap (fun k => leadBegin (sortByBegin (keyPartition rows k)))

/-- The continuity violations before the LIMIT clause: CTE rows whose
`next_begin` is non-NULL and differs from the row's end date.  The SQL
projects (key, begin, end, next_begin); here the underlying row is kept,
which under per-key-unique begin dates carries the same information. -/
def scd2ContinuityViolationRows (rows : List ScdRow) : List ScdRow :=
  ((scd2ContinuityCTE rows).filter (fun p =>
    match p.2 with
    | none => false
    | some nb => p.1.end_date ≠ nb)).map Prod.fst

/-- The full result set of the compiled `scd2_continuity` predicate,
including its `LIMIT 100`. -/
def scd2ContinuityQuery (rows : List ScdRow) : List ScdRow :=
  (scd2ContinuityViolationRows rows).take 100

/-- Minimum of a list of naturals, `none` when empty. -/
def minNatOfList : List Nat → Option Nat
  | [] => none
  | x :: xs =>
    match minNatOfList xs with
    | none => some x
    | some m => some (min x m)

/-- Maximum of a list of naturals, `none` when empty (`MAX` over an empty
set is NULL). -/
def maxNatOfList : List Nat → Option Nat
  | [] => none
  | x :: xs =>
    match maxNatOfList xs with
    | none => some x
    | some m => some (max x m)

/-- The begin dates of the later versions of `r` within its key. -/
def successorBegins (rows : List ScdRow) (r : ScdRow) : List Nat :=
  ((keyPartition rows r.key).filter (fun s => r.begin_date < s.begin_date)).map
    (fun s => s.begin_date)

/-- Specification-side successor: the begin date of the next version of
the same key in begin-date order, i.e. the least begin date of a same-key
row strictly after `r.begin_date`.  This definition follows the spec text
of the continuity rule and is compared against the compiled pipeline. -/
def specNextBegin (rows : List ScdRow) (r : ScdRow) : Option Nat :=
  minNatOfList (successorBegins rows r)

/-- Specification-side continuity violation: the row has a successor
version whose begin date differs from the row's end date. -/
def specContinuityViolation (rows : List ScdRow) (r : ScdRow) : Bool :=
  match specNextBegin rows r with
  | none => false
  | some nb => r.end_date ≠ nb

/-- The scalar subquery `SELECT MAX(begin) FROM t WHERE flag IN (...)` of
the `scd2_no_record_after_current` predicate — a maximum over the active
rows of the whole table, with no key partitioning. -/
def maxActiveBegin (rows : List ScdRow) : Option Nat :=
  maxNatOfList ((rows.filter (fun r => isActiveFlag r.active_flag)).map
    (fun r => r.begin_date))

/-- The `scd2_no_record_after_current` violations before the LIMIT
clause: inactive rows whose begin date exceeds the global active maximum;
a NULL maximum (no active row) makes the comparison NULL, keeping
nothing. -/
def scd2NoRecordAfterCurrentRows (rows : List ScdRow) : List ScdRow :=
  rows.filter (fun r =>
    (match maxActiveBegin rows with
     | none => false
     | some m => decide (m < r.begin_date)) && !(isActiveFlag r.active_flag))

/-- The full result set of the compiled `scd2_no_record_after_current`
predicate including its `LIMIT 100`. -/
def scd2NoRecordAfterCurrentQuery (rows : List ScdRow) : List ScdRow :=
  (scd2NoRecordAfterCurrentRows rows).take 100

/-- Specification-side orphan-future-version violation, following the
claim: the row is inactive and its begin date exceeds the begin date of
an active row of the same key (under the single-current-row invariant,
"the" active row of that key). -/
def specOrphanViolation (rows : List ScdRow) (r : ScdRow) : Bool :=
  !(isActiveFlag r.active_flag) &&
  (rows.any (fun a => a.key = r.key && isActiveFlag a.active_flag &&
    decide (a.begin_date < r.begin_date)))

/-- Strict version of the window ordering, used to reason about
partitions whose begin dates are pairwise distinct. -/
def beginLT (a b : ScdRow) : Prop := a.begin_date < b.begin_date

/-- Per-key uniqueness of begin dates (the invariant the catalog's
`scd2_unique_begin_date` rule enforces), stated pairwise over the list so
that duplicate physical rows are excluded as well. -/
def uniqueBeginPerKey (rows : List ScdRow) : Prop :=
  rows.Pairwise (fun a b => a.key = b.key → a.begin_date ≠ b.begin_date)

instance uniqueBeginPerKeyDecidable (rows : List ScdRow) :
    Decidable (uniqueBeginPerKey rows) := by
  unfold uniqueBeginPerKey
  infer_instance

/-- A single query row used by concrete environments. -/
def row1 : QueryRow := [("c", "v")]

/-- A `process_mapping` environment in which every query returns exactly
one row and all collaborators succeed. -/
def envOneRowM : MapEnv :=
  { bq_row_count := fun _ => .ok 1
    table_metadata := fun _ => .ok { schema := [] }
    resolve_pattern := fun _ _ => .ok ["f.csv"]
    count_csv_rows := fun _ _ => .ok 1
    execute_query := fun _ => .ok [row1]
    active_custom_tests := fun _ _ _ => .ok []
    get_sample_data := fun _ _ => .ok []
    sample_csv_data := fun _ _ _ => .ok []
    generate_test_suggestions := .ok [] }

/-- A `process_scd` environment in which every query returns exactly one
row and all collaborators succeed. -/
def envOneRowS : ScdEnv :=
  { table_metadata := fun _ => .ok ()
    execute_query := fun _ => .ok [row1]
    bq_row_count := fun _ => .ok 1 }

/-- A `process_scd` environment whose metadata lookup always fails. -/
def envMetaErrS : ScdEnv :=
  { table_metadata := fun _ => .error "no table"
    execute_query := fun _ => .ok []
    bq_row_count := fun _ => .ok 0 }

/-- A minimal validation context for exercising single templates. -/
def cfgEx : SqlConfig := { full_table_name := "p.d.t" }

/-- A BQ-to-BQ mapping whose source table exists and whose target table
does not. -/
def mC3 : Mapping :=
  { target_dataset := "ds"
    target_table := "t"
    source_dataset := some "sd"
    source_table := some "st" }

/-- Environment for `mC3`: the source row count succeeds with 100 rows and
the target row count fails. -/
def envC3 : MapEnv :=
  { bq_row_count := fun s => if s = "p.sd.st" then .ok 100 else .error "tgt missing"
    table_metadata := fun _ => .ok { schema := [] }
    resolve_pattern := fun _ _ => .ok []
    count_csv_rows := fun _ _ => .ok 0
    execute_query := fun _ => .ok []
    active_custom_tests := fun _ _ _ => .ok []
    get_sample_data := fun _ _ => .ok []
    sample_csv_data := fun _ _ _ => .ok []
    generate_test_suggestions := .ok [] }

/-- An SCD mapping used as the failing single-table configuration. -/
def msC3 : ScdMapping := { target_dataset := "ds", target_table := "t" }

/-- A BQ-to-BQ mapping for the row-count example runs. -/
def mC5 : Mapping :=
  { target_dataset := "ds"
    target_table := "t"
    source_dataset := some "sd"
    source_table := some "st"
    auto_suggest := false }

/-- Environment for `mC5`: the source counts 100 rows, the target 95. -/
def envC5 : MapEnv :=
  { bq_row_count := fun s => if s = "p.sd.st" then .ok 100 else .ok 95
    table_metadata := fun _ => .ok { schema := [] }
    resolve_pattern := fun _ _ => .ok []
    count_csv_rows := fun _ _ => .ok 0
    execute_query := fun _ => .ok []
    active_custom_tests := fun _ _ _ => .ok []
    get_sample_data := fun _ _ => .ok []
    sample_csv_data := fun _ _ _ => .ok []
    generate_test_suggestions := .ok [] }

/-- The resolved source of `mC5` under `envC5`. -/
def infoC5 : SourceInfo :=
  { file_row_count := 100
    source_description := "p.sd.st"
    bq_full_source := some "p.sd.st"
    gcs_bucket_path := none }

/-- Three SCD config rows; the second one's target table is missing. -/
def configsC4 : List ScdConfig :=
  [ { config_id := some "c1", target_dataset := "ds", target_table := "t1",
      scd_type := "scd1", primary_keys := ["id"], surrogate_key := some "sk" }
  , { config_id := some "c2", target_dataset := "ds", target_table := "t2",
      scd_type := "scd1", primary_keys := ["id"], surrogate_key := some "sk" }
  , { config_id := some "c3", target_dataset := "ds", target_table := "t3",
      scd_type := "scd1", primary_keys := ["id"], surrogate_key := some "sk" } ]

/-- Environment for `configsC4`: metadata resolves for every table except
`p.ds.t2`, and every executed query returns no violations. -/
def envC4 : ScdEnv :=
  { table_metadata := fun s => if s = "p.ds.t2" then .error "Table p.ds.t2 not found" else .ok ()
    execute_query := fun _ => .ok [row1]
    bq_row_count := fun _ => .ok 5 }

/-- A chain with a gap: versions [begin=0, end=2] and [begin=4, end=6]. -/
def gapTable : List ScdRow :=
  [ { key := 7, begin_date := 0, end_date := 2, active_flag := "N" }
  , { key := 7, begin_date := 4, end_date := 6, active_flag := "Y" } ]

/-- The violating row of `gapTable` (the one ending at 2). -/
def gapRow : ScdRow := { key := 7, begin_date := 0, end_date := 2, active_flag := "N" }

/-- A perfectly chained history: end of the first version equals begin of
the second. -/
def chainTable : List ScdRow :=
  [ { key := 7, begin_date := 0, end_date := 4, active_flag := "N" }
  , { key := 7, begin_date := 4, end_date := 6, active_flag := "Y" } ]

/-- A single-key table with 102 versions each violating continuity
(every end date overshoots the next begin date by one). -/
def bigTable : List ScdRow :=
  (List.range 102).map (fun i =>
    { key := 1, begin_date := i, end_date := i + 2, active_flag := "N" })

/-- The continuity-violating row of `bigTable` that the LIMIT drops. -/
def bigDroppedRow : ScdRow :=
  { key := 1, begin_date := 100, end_date := 102, active_flag := "N" }

/-- Two keys: key 0 has a single active row beginning at 10; key 1 has an
active row beginning at 0 and an inactive row beginning at 5 (a per-key
orphan future version that the global-maximum comparison misses). -/
def orphanTable : List ScdRow :=
  [ { key := 0, begin_date := 10, end_date := 99, active_flag := "Y" }
  , { key := 1, begin_date := 0, end_date := 5, active_flag := "Y" }
  , { key := 1, begin_date := 5, end_date := 8, active_flag := "N" } ]

/-- The per-key orphan row of `orphanTable`. -/
def orphanRow : ScdRow := { key := 1, begin_date := 5, end_date := 8, active_flag := "N" }

/-- An SCD mapping that omits the three temporal column keys entirely. -/
def mDirect : ScdMapping := { target_dataset := "ds", target_table := "t" }

/-- A config-table row whose temporal columns are NULL. -/
def cOmit : ScdConfig := { target_dataset := "ds", target_table := "t" }

/-- An SCD1 mapping whose `enabled_test_ids` key holds an empty list. -/
def m10 : ScdMapping :=
  { target_dataset := "ds"
    target_table := "t"
    scd_type := some "scd1"
    surrogate_key := some "sk"
    primary_keys := ["id"]
    enabled_test_ids := some [] }

/-- The SQL the smoke template generates for `cfgEx`. -/
def sqlEx : String := "SELECT * FROM \x60p.d.t\x60 LIMIT 1"

/-- A concrete custom test for the `process_mapping` path. -/
def ctEx : CustomTest := { test_name := some "ct", sql_query := "SELECT 1" }

/-- A concrete custom business rule for the `process_scd` path. -/
def ctsEx : ScdCustomTest := { name := some "rule one", sql := some "SELECT 1" }

/-- Helper: `process_scd` sets `error` only on runs aborted before any
rule executed, in which case the result list is empty. -/
theorem processScd_error_empty (pid : String) (env : ScdEnv) (m : ScdMapping)
    (h : (processScd pid env m).error ≠ none) :
    (processScd pid env m).predefined_results = [] := by
  simp only [processScd, processScdFull] at h ⊢
  cases hm : env.table_metadata (scdFullTableName pid m) with
  | error e => simp [hm]
  | ok u => simp [hm] at h

/-- Helper: a successful `process_mapping` body always carries `error = none`. -/
theorem processMappingBody_ok_error_none (pid : String) (env : MapEnv) (m : Mapping)
    (r : MappingResult) (h : processMappingBody pid env m = .ok r) : r.error = none := by
  simp only [processMappingBody] at h
  cases h1 : sourceResolution pid env m with
  | error e => simp [h1] at h
  | ok info =>
    simp only [h1] at h
    cases h2 : env.bq_row_count (fullTargetName pid m) with
    | error e => simp [h2] at h
    | ok bq =>
      simp only [h2] at h
      cases h3 : env.table_metadata (fullTargetName pid m) with
      | error e => simp [h3] at h
      | ok meta =>
        simp only [h3, Except.ok.injEq] at h
        rw [← h]

/-- Helper: `process_mapping` sets `error` only on runs aborted before any
rule executed, in which case the result list is empty. -/
theorem processMapping_error_empty (pid : String) (env : MapEnv) (m : Mapping)
    (h : (processMapping pid env m).error ≠ none) :
    (processMapping pid env m).predefined_results = [] := by
  simp only [processMapping] at h ⊢
  cases hb : processMappingBody pid env m with
  | error e => simp [hb]
  | ok r =>
    simp only [hb] at h
    exact absurd (processMappingBody_ok_error_none pid env m r hb) (by simpa using h)

/-- Helper: a computed list minimum is an element of the list. -/
theorem minNatOfList_mem (l : List Nat) (m : Nat) (h : minNatOfList l = some m) : m ∈ l := by
  induction l generalizing m with
  | nil => simp [minNatOfList] at h
  | cons x xs ih =>
    unfold minNatOfList at h
    cases hx : minNatOfList xs with
    | none => rw [hx] at h; cases h; simp
    | some m2 =>
      rw [hx] at h
      cases h
      rcases Nat.le_total x m2 with hle | hle
      · rw [Nat.min_eq_left hle]; exact List.mem_cons_self x xs
      · rw [Nat.min_eq_right hle]; exact List.mem_cons_of_mem x (ih m2 hx)

/-- Helper: the computed minimum is invariant under permutation. -/
theorem minNatOfList_perm (l l2 : List Nat) (h : l.Perm l2) :
    minNatOfList l = minNatOfList l2 := by
  induction h with
  | nil => rfl
  | cons x _ ih => simp [minNatOfList, ih]
  | swap x y l =>
    cases hx : minNatOfList l with
    | none => simp [minNatOfList, hx, Nat.min_comm]
    | some m => simp [minNatOfList, hx, Nat.min_comm, Nat.min_assoc, Nat.min_left_comm]
  | trans _ _ ih1 ih2 => exact ih1.trans ih2

/-- Helper: a computed list maximum exists exactly for non-empty lists. -/
theorem maxNatOfList_eq_none (l : List Nat) : maxNatOfList l = none ↔ l = [] := by
  cases l with
  | nil => simp [maxNatOfList]
  | cons x xs =>
    unfold maxNatOfList
    cases hx : maxNatOfList xs <;> simp

/-- Helper: a computed list maximum is an element of the list. -/
theorem maxNatOfList_mem (l : List Nat) (m : Nat) (h : maxNatOfList l = some m) : m ∈ l := by
  induction l generalizing m with
  | nil => simp [maxNatOfList] at h
  | cons x xs ih =>
    unfold maxNatOfList at h
    cases hx : maxNatOfList xs with
    | none => rw [hx] at h; cases h; simp
    | some m2 =>
      rw [hx] at h
      cases h
      rcases Nat.le_total x m2 with hle | hle
      · rw [Nat.max_eq_right hle]; exact List.mem_cons_of_mem x (ih m2 hx)
      · rw [Nat.max_eq_left hle]; exact List.mem_cons_self x xs

/-- Helper: a computed list maximum bounds every element. -/
theorem maxNatOfList_ge (l : List Nat) (m : Nat) (h : maxNatOfList l = some m) :
    ∀ x ∈ l, x ≤ m := by
  induction l generalizing m with
  | nil => simp
  | cons x xs ih =>
    unfold maxNatOfList at h
    cases hx : maxNatOfList xs with
    | none =>
      rw [hx] at h; cases h
      rw [maxNatOfList_eq_none] at hx
      subst hx
      simp
    | some m2 =>
      rw [hx] at h
      cases h
      intro y hy
      rcases List.mem_cons.mp hy with heq | hy2
      · rw [heq]; exact Nat.le_max_left x m2
      · exact Nat.le_trans (ih m2 hx y hy2) (Nat.le_max_right x m2)

/-- Helper: the first component of a lead-annotated entry is in the list. -/
theorem fst_mem_of_mem_leadBegin (l : List ScdRow) (p : ScdRow × Option Nat)
    (h : p ∈ leadBegin l) : p.1 ∈ l := by
  induction l generalizing p with
  | nil => simp [leadBegin] at h
  | cons a rest ih =>
    rcases List.mem_cons.mp h with heq | hmem
    · rw [heq]; exact List.mem_cons_self a rest
    · exact List.mem_cons_of_mem a (ih p hmem)

/-- Helper: the head of a strictly begin-increasing list realizes the
minimum of its begin dates. -/
theorem minNat_map_head_of_pairwise (l : List ScdRow) (h : l.Pairwise beginLT) :
    minNatOfList (l.map (fun s => s.begin_date)) = l.head?.map (fun s => s.begin_date) := by
  cases l with
  | nil => rfl
  | cons a rest =>
    rw [List.map_cons]
    unfold minNatOfList
    cases hx : minNatOfList (rest.map (fun s => s.begin_date)) with
    | none => simp
    | some m =>
      obtain ⟨b, hb, hbm⟩ := List.mem_map.mp (minNatOfList_mem _ _ hx)
      have hab : a.begin_date < b.begin_date := (List.pairwise_cons.mp h).1 b hb
      rw [hbm] at hab
      simp [Nat.min_eq_left (Nat.le_of_lt hab)]

/-- Helper: over a strictly begin-increasing partition, the lead
annotation of a row is exactly the least begin date greater than the
row's own begin date. -/
theorem mem_leadBegin_char (l : List ScdRow) (hl : l.Pairwise beginLT)
    (r : ScdRow) (nb : Option Nat) :
    (r, nb) ∈ leadBegin l ↔
      r ∈ l ∧
        nb = minNatOfList ((l.filter (fun s => r.begin_date < s.begin_date)).map
          (fun s => s.begin_date)) := by
  induction l with
  | nil => simp [leadBegin]
  | cons a rest ih =>
    obtain ⟨ha, hrest⟩ := List.pairwise_cons.mp hl
    by_cases hra : r = a
    · subst hra
      have hnot : r ∉ rest := fun hmem => absurd (ha r hmem) (Nat.lt_irrefl _)
      have hfil : (r :: rest).filter (fun s => decide (r.begin_date < s.begin_date)) = rest := by
        rw [List.filter_cons_of_neg (by simp)]
        exact List.filter_eq_self.mpr (fun b hb => by simpa using ha b hb)
      rw [hfil, minNat_map_head_of_pairwise rest hrest]
      simp only [leadBegin, List.mem_cons]
      constructor
      · rintro (heq | hmem)
        · refine ⟨by simp, ?_⟩
          exact (Prod.mk.injEq r nb r (rest.head?.map (fun s => s.begin_date))).mp heq |>.2
        · exact absurd (fst_mem_of_mem_leadBegin rest (r, nb) hmem) hnot
      · rintro ⟨-, hnb⟩
        exact Or.inl (by rw [hnb])
    · have hlhs : ((r, nb) ∈ leadBegin (a :: rest)) ↔ (r, nb) ∈ leadBegin rest := by
        simp only [leadBegin, List.mem_cons]
        constructor
        · rintro (heq | hmem)
          · exact absurd (congrArg Prod.fst heq) hra
          · exact hmem
        · exact Or.inr
      rw [hlhs, ih hrest]
      by_cases hrr : r ∈ rest
      · have haf : ¬ (r.begin_date < a.begin_date) := Nat.not_lt.mpr (Nat.le_of_lt (ha r hrr))
        rw [List.filter_cons_of_neg (by simpa using haf)]
        constructor
        · rintro ⟨hmem, hnb⟩; exact ⟨List.mem_cons_of_mem a hmem, hnb⟩
        · rintro ⟨-, hnb⟩; exact ⟨hrr, hnb⟩
      · constructor
        · rintro ⟨hmem, -⟩; exact absurd hmem hrr
        · rintro ⟨hmem, -⟩
          rcases List.mem_cons.mp hmem with heq | hmem2
          · exact absurd heq hra
          · exact absurd hmem2 hrr

/-- Helper: each begin-sorted key partition is strictly begin-increasing
when begin dates are unique per key. -/
theorem sorted_partition_pairwise_lt (rows : List ScdRow)
    (hdist : uniqueBeginPerKey rows) (k : Nat) :
    (sortByBegin (keyPartition rows k)).Pairwise beginLT := by
  have hne : (keyPartition rows k).Pairwise (fun a b => a.begin_date ≠ b.begin_date) := by
    have h1 : (keyPartition rows k).Pairwise
        (fun a b => a.key = b.key → a.begin_date ≠ b.begin_date) :=
      hdist.sublist (List.filter_sublist rows)
    refine h1.imp_of_mem ?_
    intro a b hamem hbmem hab
    have hak : a.key = k := by simpa using (List.mem_filter.mp hamem).2
    have hbk : b.key = k := by simpa using (List.mem_filter.mp hbmem).2
    exact hab (hak.trans hbk.symm)
  have hle : (sortByBegin (keyPartition rows k)).Pairwise beginLE :=
    List.sorted_insertionSort beginLE (keyPartition rows k)
  have hne2 : (sortByBegin (keyPartition rows k)).Pairwise
      (fun a b => a.begin_date ≠ b.begin_date) :=
    ((List.perm_insertionSort beginLE (keyPartition rows k)).pairwise_iff
      (fun hab => hab.symm)).mpr hne
  exact (hle.and hne2).imp (fun hp => Nat.lt_of_le_of_ne hp.1 hp.2)

/-- Helper: membership in the continuity pipeline coincides with the
specification-side violation predicate, given per-key-unique begins. -/
theorem mem_scd2ContinuityViolationRows (rows : List ScdRow)
    (hdist : uniqueBeginPerKey rows) (r : ScdRow) :
    r ∈ scd2ContinuityViolationRows rows ↔
      r ∈ rows ∧ specContinuityViolation rows r = true := by
  have hmin : ∀ k : Nat,
      minNatOfList (((sortByBegin (keyPartition rows k)).filter
        (fun s => decide (r.begin_date < s.begin_date))).map (fun s => s.begin_date))
      = minNatOfList (((keyPartition rows k).filter
        (fun s => decide (r.begin_date < s.begin_date))).map (fun s => s.begin_date)) := by
    intro k
    exact minNatOfList_perm _ _
      (((List.perm_insertionSort beginLE (keyPartition rows k)).filter _).map _)
  constructor
  · intro hmem
    obtain ⟨p, hpmem, hfst⟩ := List.mem_map.mp hmem
    obtain ⟨hcte, hcond⟩ := List.mem_filter.mp hpmem
    obtain ⟨k, hk, hlead⟩ := List.mem_flatMap.mp hcte
    have hp : p = (r, p.2) := by rw [← hfst]
    rw [hp] at hlead hcond
    obtain ⟨hrl, hnb⟩ :=
      (mem_leadBegin_char _ (sorted_partition_pairwise_lt rows hdist k) r p.2).mp hlead
    have hrmem : r ∈ keyPartition rows k := by
      have := List.perm_insertionSort beginLE (keyPartition rows k)
      exact this.mem_iff.mp hrl
    have hkey : r.key = k := by simpa using (List.mem_filter.mp hrmem).2
    have hrrows : r ∈ rows := (List.mem_filter.mp hrmem).1
    subst hkey
    have hsn : specNextBegin rows r = p.2 := by
      rw [specNextBegin, successorBegins, ← hmin r.key, ← hnb]
    refine ⟨hrrows, ?_⟩
    rw [specContinuityViolation, hsn]
    cases hnbv : p.2 with
    | none => rw [hnbv] at hcond; simp at hcond
    | some v => rw [hnbv] at hcond; simpa using hcond
  · rintro ⟨hrrows, hspec⟩
    rw [specContinuityViolation] at hspec
    cases hsn : specNextBegin rows r with
    | none => rw [hsn] at hspec; simp at hspec
    | some v =>
      rw [hsn] at hspec
      have hv : r.end_date ≠ v := by simpa using hspec
      have hk : r.key ∈ keyList rows := by
        rw [keyList, List.mem_dedup]
        exact List.mem_map.mpr ⟨r, hrrows, rfl⟩
      have hrs : r ∈ sortByBegin (keyPartition rows r.key) := by
        have := List.perm_insertionSort beginLE (keyPartition rows r.key)
        exact this.mem_iff.mpr (List.mem_filter.mpr ⟨hrrows, by simp⟩)
      have hnb : some v = minNatOfList (((sortByBegin (keyPartition rows r.key)).filter
          (fun s => decide (r.begin_date < s.begin_date))).map (fun s => s.begin_date)) := by
        rw [hmin r.key]
        rw [specNextBegin, successorBegins] at hsn
        exact hsn.symm
      have hlead : (r, some v) ∈ leadBegin (sortByBegin (keyPartition rows r.key)) :=
        (mem_leadBegin_char _ (sorted_partition_pairwise_lt rows hdist r.key) r (some v)).mpr
          ⟨hrs, hnb⟩
      refine List.mem_map.mpr ⟨(r, some v), List.mem_filter.mpr ⟨?_, ?_⟩, rfl⟩
      · exact List.mem_flatMap.mpr ⟨r.key, hk, hlead⟩
      · simpa using hv

/-- Helper: membership in the orphan-future-version pipeline coincides
with the global-maximum characterization of the generated SQL. -/
theorem mem_scd2NoRecordAfterCurrentRows (rows : List ScdRow) (r : ScdRow) :
    r ∈ scd2NoRecordAfterCurrentRows rows ↔
      r ∈ rows ∧ isActiveFlag r.active_flag = false
      ∧ (∃ a ∈ rows, isActiveFlag a.active_flag = true)
      ∧ (∀ a ∈ rows, isActiveFlag a.active_flag = true → a.begin_date < r.begin_date) := by
  rw [scd2NoRecordAfterCurrentRows, List.mem_filter]
  cases hmx : maxActiveBegin rows with
  | none =>
    have h1 : (rows.filter (fun t => isActiveFlag t.active_flag)) = [] := by
      rw [maxActiveBegin, maxNatOfList_eq_none] at hmx
      exact List.map_eq_nil_iff.mp hmx
    have h2 := List.filter_eq_nil_iff.mp h1
    simp only [hmx]
    constructor
    · rintro ⟨-, hc⟩; simp at hc
    · rintro ⟨-, -, ⟨a, ha, hact⟩, -⟩
      exact absurd hact (by simpa using h2 a ha)
  | some mx =>
    have hmx2 : maxNatOfList ((rows.filter (fun t => isActiveFlag t.active_flag)).map
        (fun t => t.begin_date)) = some mx := by
      rw [maxActiveBegin] at hmx; exact hmx
    obtain ⟨a0, ha0mem, ha0b⟩ := List.mem_map.mp (maxNatOfList_mem _ _ hmx2)
    obtain ⟨ha0rows, ha0act⟩ := List.mem_filter.mp ha0mem
    have hub : ∀ a ∈ rows, isActiveFlag a.active_flag = true → a.begin_date ≤ mx := by
      intro a ha hact
      exact maxNatOfList_ge _ _ hmx2 a.begin_date
        (List.mem_map.mpr ⟨a, List.mem_filter.mpr ⟨ha, hact⟩, rfl⟩)
    simp only [hmx]
    constructor
    · rintro ⟨hrrows, hc⟩
      rw [Bool.and_eq_true] at hc
      have h1 : mx < r.begin_date := by simpa using hc.1
      have h2 : isActiveFlag r.active_flag = false := by
        simpa using hc.2
      refine ⟨hrrows, h2, ⟨a0, ha0rows, ha0act⟩, ?_⟩
      intro a ha hact
      exact Nat.lt_of_le_of_lt (hub a ha hact) h1
    · rintro ⟨hrrows, hina, -, hall⟩
      refine ⟨hrrows, ?_⟩
      rw [Bool.and_eq_true]
      constructor
      · have : mx < r.begin_date := by
          rw [← ha0b]
          exact hall a0 ha0rows ha0act
        simpa using this
      · simpa using hina

/-- C6 (amended): under per-key-unique begin dates, the compiled
continuity predicate returns exactly the rows that have a successor
version of the same key (next in begin-date order) whose begin date
differs from the row's end date, capped by its LIMIT clause at 100 rows
(so exact whenever at most 100 rows violate); the concrete two-version
instances hold as claimed: a gap (end 2 vs next begin 4) yields exactly
the row ending at 2, and a perfect chain (end 4 = next begin 4) yields
no rows. -/
theorem scd2_continuity_exact (rows : List ScdRow)
    (hdist : uniqueBeginPerKey rows)
    (hcap : (scd2ContinuityViolationRows rows).length ≤ 100) :
    (∀ r, r ∈ scd2ContinuityQuery rows ↔
      r ∈ rows ∧ specContinuityViolation rows r = true)
    ∧ scd2ContinuityQuery gapTable = [gapRow]
    ∧ scd2ContinuityQuery chainTable = [] := by
  refine ⟨?_, by decide, by decide⟩
  intro r
  rw [scd2ContinuityQuery, List.take_of_length_le hcap]
  exact mem_scd2ContinuityViolationRows rows hdist r

/-- Witness for C6: the amended theorem applied to the gap table. -/
theorem scd2_continuity_exact_witness :
    uniqueBeginPerKey gapTable
    ∧ (scd2ContinuityViolationRows gapTable).length ≤ 100
    ∧ ((∀ r, r ∈ scd2ContinuityQuery gapTable ↔
        r ∈ gapTable ∧ specContinuityViolation gapTable r = true)
      ∧ scd2ContinuityQuery gapTable = [gapRow]
      ∧ scd2ContinuityQuery chainTable = []) :=
  ⟨by decide, by decide, scd2_continuity_exact gapTable (by decide) (by decide)⟩

set_option maxRecDepth 4000 in
/-- C6 counterexample: on a single-key chain with 101 continuity
violations the compiled query (LIMIT 100) drops a violating row, so it
does not return exactly the violating rows. -/
theorem scd2_continuity_limit_counterexample :
    bigDroppedRow ∈ bigTable
    ∧ specContinuityViolation bigTable bigDroppedRow = true
    ∧ bigDroppedRow ∉ scd2ContinuityQuery bigTable
    ∧ (scd2ContinuityQuery bigTable).length = 100
    ∧ (scd2ContinuityViolationRows bigTable).length = 101 := by decide

/-- C7 (amended): the compiled no-orphan-future-version predicate flags
exactly the inactive rows whose begin date exceeds the begin date of
every currently-active row of the whole table (a global maximum with no
key partitioning, and nothing when no row is active), capped by its
LIMIT clause at 100 rows. -/
theorem scd2_no_record_after_current_global (rows : List ScdRow)
    (hcap : (scd2NoRecordAfterCurrentRows rows).length ≤ 100) :
    ∀ r, r ∈ scd2NoRecordAfterCurrentQuery rows ↔
      r ∈ rows ∧ isActiveFlag r.active_flag = false
      ∧ (∃ a ∈ rows, isActiveFlag a.active_flag = true)
      ∧ (∀ a ∈ rows, isActiveFlag a.active_flag = true → a.begin_date < r.begin_date) := by
  intro r
  rw [scd2NoRecordAfterCurrentQuery, List.take_of_length_le hcap]
  exact mem_scd2NoRecordAfterCurrentRows rows r

/-- Witness for C7: the amended theorem applied to the two-key table. -/
theorem scd2_no_record_after_current_global_witness :
    (scd2NoRecordAfterCurrentRows orphanTable).length ≤ 100
    ∧ (∀ r, r ∈ scd2NoRecordAfterCurrentQuery orphanTable ↔
      r ∈ orphanTable ∧ isActiveFlag r.active_flag = false
      ∧ (∃ a ∈ orphanTable, isActiveFlag a.active_flag = true)
      ∧ (∀ a ∈ orphanTable, isActiveFlag a.active_flag = true →
          a.begin_date < r.begin_date)) :=
  ⟨by decide, scd2_no_record_after_current_global orphanTable (by decide)⟩

/-- C7 counterexample: a per-key orphan future version (key 1: inactive
begin 5 after its active row's begin 0) that the compiled query misses
because it compares against the global active maximum (begin 10 of
key 0). -/
theorem scd2_no_record_after_current_counterexample :
    orphanRow ∈ orphanTable
    ∧ specOrphanViolation orphanTable orphanRow = true
    ∧ scd2NoRecordAfterCurrentQuery orphanTable = [] := by decide

/-- C1 (code evaluation at the failing input): with a non-empty surrogate
key and no explicit rule list, `process_scd` appends ids
`scd1_primary_key_null` / `scd1_primary_key_unique` (SCD1) and
`scd2_primary_key_null` (SCD2) that are absent from the catalog (whose
keys are `scd_primary_key_null` / `scd_primary_key_unique`) and are
silently dropped by `get_enabled_tests`, while the SCD2 branch appends
the two surrogate ids a second time; the selected template lists
therefore have 3 and 16 members, not the asserted 5 and 15. -/
theorem scd_default_rule_selection_counts :
    (get_enabled_tests (scdAutoSelectIds (some "surr_id") "scd1")).length = 3
    ∧ (get_enabled_tests (scdAutoSelectIds (some "surr_id") "scd2")).length = 16
    ∧ scdAutoSelectIds (some "surr_id") "scd1" =
        ["table_exists", "surrogate_key_null", "surrogate_key_unique",
         "scd1_primary_key_null", "scd1_primary_key_unique"]
    ∧ inPredefined "scd1_primary_key_null" = false
    ∧ inPredefined "scd1_primary_key_unique" = false
    ∧ inPredefined "scd2_primary_key_null" = false
    ∧ (scdAutoSelectIds (some "surr_id") "scd2").count "surrogate_key_null" = 2 := by
  decide

/-- C9 (code evaluation at the failing input): when the temporal column
names are not supplied, the direct `process_scd` path defaults them to
the fixed convention, while the batch path of `process_scd_config_table`
inserts the dict keys bound to `None`, so the `.get` default never fires
and the compiled predicates reference a column literally named `None`. -/
theorem scd_temporal_column_defaults :
    (scdTestConfig "p" mDirect).begin_date_column = some "DWBeginEffDateTime"
    ∧ (scdTestConfig "p" mDirect).end_date_column = some "DWEndEffDateTime"
    ∧ (scdTestConfig "p" mDirect).active_flag_column = some "DWCurrentRowFlag"
    ∧ (scdTestConfig "p" (configToMapping cOmit)).begin_date_column = none
    ∧ (scdTestConfig "p" (configToMapping cOmit)).end_date_column = none
    ∧ (scdTestConfig "p" (configToMapping cOmit)).active_flag_column = none
    ∧ tmpl_scd2_begin_date_null.generate_sql (scdTestConfig "p" (configToMapping cOmit))
        = some "SELECT * FROM \x60p.ds.t\x60 WHERE None IS NULL LIMIT 100" := by
  decide

/-- C2 (amended): the smoke inversion — PASS exactly when rows are
returned — holds in the predefined-rule runner of `process_scd`, but the
predefined-rule runner of `process_mapping` applies the uniform
zero-rows-pass convention to every rule it executes, smoke rules
included. -/
theorem smoke_rule_conventions
    (envS : ScdEnv) (envM : MapEnv) (cfgS cfgM : SqlConfig) (tS tM : TestTemplate)
    (sqlS sqlM : String) (rowsS rowsM : List QueryRow)
    (hgenS : tS.generate_sql cfgS = some sqlS) (hneS : sqlS.isEmpty = false)
    (hqS : envS.execute_query sqlS = .ok rowsS)
    (hsmoke : tS.category = "smoke")
    (hid : tM.id ≠ "row_count_match")
    (hgenM : tM.generate_sql cfgM = some sqlM) (hneM : sqlM.isEmpty = false)
    (hqM : envM.execute_query sqlM = .ok rowsM) :
    (∀ res, runPredefinedTestScd envS cfgS tS = some res →
      res.status = if rowsS.length > 0 then Status.PASS else Status.FAIL)
    ∧ (∀ res, runPredefinedTestMapping envM cfgM tM = some res →
      res.status = if rowsM.length = 0 then Status.PASS else Status.FAIL) := by
  constructor
  · intro res hres
    simp only [runPredefinedTestScd, hgenS, hneS, hqS, hsmoke, Bool.false_eq_true,
      if_false, Option.some.injEq] at hres
    rw [← hres]
    simp
  · intro res hres
    simp only [runPredefinedTestMapping, hgenM, hneM, hqM, hid, Bool.false_eq_true,
      if_false, if_neg hid, Option.some.injEq] at hres
    rw [← hres]

/-- Witness for C2: the amended theorem applied to the smoke template in
both runners, with a one-row query result. -/
theorem smoke_rule_conventions_witness :
    (tmpl_table_exists.generate_sql cfgEx = some sqlEx
      ∧ sqlEx.isEmpty = false
      ∧ envOneRowS.execute_query sqlEx = .ok [row1]
      ∧ tmpl_table_exists.category = "smoke"
      ∧ tmpl_table_exists.id ≠ "row_count_match"
      ∧ envOneRowM.execute_query sqlEx = .ok [row1])
    ∧ ((∀ res, runPredefinedTestScd envOneRowS cfgEx tmpl_table_exists = some res →
        res.status = if ([row1] : List QueryRow).length > 0 then Status.PASS else Status.FAIL)
      ∧ (∀ res, runPredefinedTestMapping envOneRowM cfgEx tmpl_table_exists = some res →
        res.status = if ([row1] : List QueryRow).length = 0 then Status.PASS else Status.FAIL)) :=
  ⟨⟨rfl, rfl, rfl, rfl, by decide, rfl⟩,
   smoke_rule_conventions envOneRowS envOneRowM cfgEx cfgEx tmpl_table_exists
     tmpl_table_exists sqlEx sqlEx [row1] [row1] rfl rfl rfl rfl (by decide) rfl rfl rfl⟩

/-- C2 counterexample: in `process_mapping` the smoke rule `table_exists`
FAILs although its query returned one row, where the claim requires
PASS. -/
theorem smoke_rule_mapping_counterexample :
    tmpl_table_exists.category = "smoke"
    ∧ (runPredefinedTestMapping envOneRowM cfgEx tmpl_table_exists).map
        (fun res => res.status) = some Status.FAIL
    ∧ (runPredefinedTestMapping envOneRowM cfgEx tmpl_table_exists).map
        (fun res => res.rows_affected) = some 1 := by
  decide

/-- C8 (amended): `error_message` is non-null exactly when `status` is
ERROR for every result produced by the predefined-rule and custom-rule
runners of both execution paths; the row-count pseudo-rule deviates from
the claimed invariant: it never ERRORs and sets `error_message` exactly
when its status is FAIL. -/
theorem error_message_discipline
    (envM : MapEnv) (envS : ScdEnv) (cfgM cfgS : SqlConfig) (tM tS : TestTemplate)
    (ct : CustomTest) (cts : ScdCustomTest) (full : String) (b : Bool) (s t : Nat) :
    (∀ res, runPredefinedTestMapping envM cfgM tM = some res →
      (res.error_message ≠ none ↔ res.status = Status.ERROR))
    ∧ (∀ res, runPredefinedTestScd envS cfgS tS = some res →
      (res.error_message ≠ none ↔ res.status = Status.ERROR))
    ∧ ((runCustomTestMapping envM ct).error_message ≠ none ↔
        (runCustomTestMapping envM ct).status = Status.ERROR)
    ∧ (∀ res, runCustomTestScd envS full cts = some res →
      (res.error_message ≠ none ↔ res.status = Status.ERROR))
    ∧ ((rowCountResult b s t).error_message ≠ none ↔
        (rowCountResult b s t).status = Status.FAIL) := by
  refine ⟨?_, ?_, ?_, ?_, ?_⟩
  · intro res hres
    simp only [runPredefinedTestMapping] at hres
    split at hres
    · exact absurd hres (by simp)
    · split at hres
      · exact absurd hres (by simp)
      · split at hres
        · exact absurd hres (by simp)
        · split at hres
          · rw [Option.some.injEq] at hres
            rw [← hres]
            constructor
            · intro h; exact absurd rfl h
            · intro h; revert h; split <;> simp
          · rw [Option.some.injEq] at hres
            rw [← hres]
            simp
  · intro res hres
    simp only [runPredefinedTestScd] at hres
    split at hres
    · exact absurd hres (by simp)
    · split at hres
      · exact absurd hres (by simp)
      · split at hres
        · rw [Option.some.injEq] at hres
          rw [← hres]
          constructor
          · intro h; exact absurd rfl h
          · intro h; revert h; split <;> split <;> simp
        · rw [Option.some.injEq] at hres
          rw [← hres]
          simp
  · cases hq : envM.execute_query ct.sql_query with
    | ok rows =>
      simp only [runCustomTestMapping, hq]
      constructor
      · intro h; exact absurd rfl h
      · intro h; revert h; split <;> simp
    | error e =>
      simp [runCustomTestMapping, hq]
  · intro res hres
    simp only [runCustomTestScd] at hres
    split at hres
    all_goals
      split at hres
      · exact absurd hres (by simp)
      · split at hres
        · rw [Option.some.injEq] at hres
          rw [← hres]
          constructor
          · intro h; exact absurd rfl h
          · intro h; revert h; split <;> simp
        · rw [Option.some.injEq] at hres
          rw [← hres]
          simp
  · rw [rowCountResult]
    by_cases h : s = t <;> simp [h]

/-- Witness for C8: the amended theorem applied at concrete runners, and
the row-count deviation at the 100-vs-95 instance. -/
theorem error_message_discipline_witness :
    ((rowCountResult true 100 95).error_message ≠ none ↔
      (rowCountResult true 100 95).status = Status.FAIL)
    ∧ (∀ res, runPredefinedTestScd envOneRowS cfgEx tmpl_table_exists = some res →
        (res.error_message ≠ none ↔ res.status = Status.ERROR)) :=
  ⟨(error_message_discipline envOneRowM envOneRowS cfgEx cfgEx tmpl_table_exists
      tmpl_table_exists ctEx ctsEx "p.d.t" true 100 95).2.2.2.2,
   (error_message_discipline envOneRowM envOneRowS cfgEx cfgEx tmpl_table_exists
      tmpl_table_exists ctEx ctsEx "p.d.t" true 100 95).2.1⟩

/-- C8 counterexample: the row-count pseudo-rule produced by
`process_mapping` on a 100-row source and 95-row target is a FAIL result
whose `error_message` is set, although its status is not ERROR. -/
theorem error_message_on_fail_counterexample :
    ((processMapping "p" envC5 mC5).predefined_results.map
      (fun res => (res.status, res.error_message))).head? =
      some (Status.FAIL, some "Row count mismatch: 5 rows difference") := by
  decide

/-- C5: whenever a `process_mapping` run reaches rule execution, the
row-count pseudo-rule is the first result in the returned list; it is
produced outside the predicate-compile path (its catalog template
compiles to no SQL and the per-rule runner skips its id); for all counts
its status is PASS exactly when the counts agree and its `rows_affected`
is the absolute difference; in particular 100 vs 95 gives FAIL with 5
and equal counts give PASS with 0. -/
theorem row_count_rule_first_and_exact (pid : String) (env : MapEnv) (m : Mapping)
    (info : SourceInfo) (t : Nat) (meta : TableMeta)
    (hsrc : sourceResolution pid env m = .ok info)
    (htgt : env.bq_row_count (fullTargetName pid m) = .ok t)
    (hmeta : env.table_metadata (fullTargetName pid m) = .ok meta) :
    (processMapping pid env m).predefined_results.head? =
      some (rowCountResult (mappingIsBqSource m) info.file_row_count t)
    ∧ (∀ s u : Nat, ∀ b : Bool,
        ((rowCountResult b s u).status = Status.PASS ↔ s = u)
        ∧ (rowCountResult b s u).rows_affected = natAbsDiff s u)
    ∧ (∀ cfg : SqlConfig, tmpl_row_count_match.generate_sql cfg = none)
    ∧ (∀ cfg : SqlConfig, runPredefinedTestMapping env cfg tmpl_row_count_match = none)
    ∧ (rowCountResult true 100 95).status = Status.FAIL
    ∧ (rowCountResult true 100 95).rows_affected = 5
    ∧ (rowCountResult true 100 100).status = Status.PASS
    ∧ (rowCountResult true 100 100).rows_affected = 0 := by
  refine ⟨?_, ?_, fun cfg => rfl, fun cfg => rfl, by decide, by decide, by decide, by decide⟩
  · simp only [processMapping, processMappingBody, hsrc, htgt, hmeta]
    rfl
  · intro s u b
    constructor
    · rw [rowCountResult]
      by_cases h : s = u <;> simp [h]
    · rfl

/-- Witness for C5: the theorem applied to the 100-vs-95 environment. -/
theorem row_count_rule_first_and_exact_witness :
    sourceResolution "p" envC5 mC5 = .ok infoC5
    ∧ envC5.bq_row_count (fullTargetName "p" mC5) = .ok 95
    ∧ envC5.table_metadata (fullTargetName "p" mC5) = .ok { schema := [] }
    ∧ (processMapping "p" envC5 mC5).predefined_results.head? =
        some (rowCountResult (mappingIsBqSource mC5) infoC5.file_row_count 95) :=
  ⟨rfl, rfl, rfl,
   (row_count_rule_first_and_exact "p" envC5 mC5 infoC5 95 { schema := [] }
     rfl rfl rfl).1⟩

/-- C3: both single-table entry points are total functions returning a
`MappingResult` (the embedding encodes the catch-all handlers of lines
259-266 and 431-438, so no fault escapes to the caller); whenever the
returned result carries an error it was an abort before any rule ran and
the result list is empty; and a failure to resolve the target — the SCD
metadata fetch, or the target row count after a successful source
resolution — produces exactly the error-carrying empty result. -/
theorem single_table_error_contract (pid : String) (envM : MapEnv) (m : Mapping)
    (envS : ScdEnv) (ms : ScdMapping) :
    ((processMapping pid envM m).error ≠ none →
      (processMapping pid envM m).predefined_results = [])
    ∧ ((processScd pid envS ms).error ≠ none →
      (processScd pid envS ms).predefined_results = [])
    ∧ (∀ e, envS.table_metadata (scdFullTableName pid ms) = .error e →
        processScd pid envS ms =
          { mapping_id := scdMappingId ms, mapping_info := none,
            predefined_results := [], ai_suggestions := [], error := some e })
    ∧ (∀ e s, mappingIsBqSource m = true →
        envM.bq_row_count (mappingFullSourceName pid m) = .ok s →
        envM.bq_row_count (fullTargetName pid m) = .error e →
        processMapping pid envM m =
          { mapping_id := m.mapping_id.getD "unknown", mapping_info := none,
            predefined_results := [], ai_suggestions := [], error := some e }) := by
  refine ⟨processMapping_error_empty pid envM m, processScd_error_empty pid envS ms, ?_, ?_⟩
  · intro e he
    simp [processScd, processScdFull, he]
  · intro e s hbq hs ht
    have hsrc : sourceResolution pid envM m =
        .ok { file_row_count := s
              source_description := mappingFullSourceName pid m
              bq_full_source := some (mappingFullSourceName pid m)
              gcs_bucket_path := none } := by
      simp [sourceResolution, hbq, hs]
    simp [processMapping, processMappingBody, hsrc, ht]

/-- Witness for C3: the contract applied to a failing SCD metadata fetch
and to a mapping whose target row count fails after the source resolved. -/
theorem single_table_error_contract_witness :
    envMetaErrS.table_metadata (scdFullTableName "p" msC3) = .error "no table"
    ∧ processScd "p" envMetaErrS msC3 =
        { mapping_id := scdMappingId msC3, mapping_info := none,
          predefined_results := [], ai_suggestions := [], error := some "no table" }
    ∧ mappingIsBqSource mC3 = true
    ∧ envC3.bq_row_count (mappingFullSourceName "p" mC3) = .ok 100
    ∧ envC3.bq_row_count (fullTargetName "p" mC3) = .error "tgt missing"
    ∧ processMapping "p" envC3 mC3 =
        { mapping_id := "unknown", mapping_info := none,
          predefined_results := [], ai_suggestions := [], error := some "tgt missing" } :=
  ⟨rfl,
   (single_table_error_contract "p" envC3 mC3 envMetaErrS msC3).2.2.1 "no table" rfl,
   rfl, rfl, rfl,
   (single_table_error_contract "p" envC3 mC3 envMetaErrS msC3).2.2.2 "tgt missing" 100
     rfl rfl rfl⟩

/-- C4: a batch over a non-empty list of N config rows returns one
`MappingResult` per row (total_mappings = N); each entry is exactly the
single-table run of its own config, so one unresolved target yields an
error-carrying empty result in its slot while every other entry is the
unchanged result of its own run; the summary fields are the elementwise
sums of the per-result tallies, and those sums are invariant under any
permutation of the results, so task completion order cannot affect
them. -/
theorem batch_contract (pid : String) (env : ScdEnv) (configs : List ScdConfig)
    (hne : configs ≠ []) :
    ∃ p, processScdConfigTable pid env (.ok configs) = .ok p
      ∧ p.results_by_mapping.length = configs.length
      ∧ p.summary.total_mappings = configs.length
      ∧ (∀ i : Nat, p.results_by_mapping[i]? =
          (configs[i]?).map (fun c => processScd pid env (configToMapping c)))
      ∧ (∀ r ∈ p.results_by_mapping, r.error ≠ none → r.predefined_results = [])
      ∧ p.summary.total_tests =
          (p.results_by_mapping.map (fun r => r.predefined_results.length)).sum
      ∧ p.summary.passed = (p.results_by_mapping.map (countStatus .PASS)).sum
      ∧ p.summary.failed = (p.results_by_mapping.map (countStatus .FAIL)).sum
      ∧ p.summary.errors = (p.results_by_mapping.map (countStatus .ERROR)).sum
      ∧ (∀ l, l.Perm p.results_by_mapping →
          batchSummaryOf l = batchSummaryOf p.results_by_mapping) := by
  have hemp : configs.isEmpty = false := by
    cases configs with
    | nil => exact absurd rfl hne
    | cons c cs => rfl
  refine ⟨{ summary := batchSummaryOf ((configs.map configToMapping).map (processScd pid env))
            results_by_mapping := (configs.map configToMapping).map (processScd pid env) },
    ?_, ?_, ?_, ?_, ?_, rfl, rfl, rfl, rfl, ?_⟩
  · simp [processScdConfigTable, hemp]
  · simp
  · simp [batchSummaryOf]
  · intro i
    rw [List.getElem?_map, List.getElem?_map, Option.map_map]
    rfl
  · intro r hr hre
    rw [List.map_map] at hr
    obtain ⟨c, -, rfl⟩ := List.mem_map.mp hr
    exact processScd_error_empty pid env (configToMapping c) hre
  · intro l hperm
    rw [batchSummaryOf, batchSummaryOf, hperm.length_eq,
      (hperm.map (fun r => r.predefined_results.length)).sum_eq,
      (hperm.map (countStatus .PASS)).sum_eq,
      (hperm.map (countStatus .FAIL)).sum_eq,
      (hperm.map (countStatus .ERROR)).sum_eq]

/-- Witness for C4: the batch contract applied to three configs whose
second target table does not resolve. -/
theorem batch_contract_witness :
    configsC4 ≠ []
    ∧ (∃ p, processScdConfigTable "p" envC4 (.ok configsC4) = .ok p
      ∧ p.results_by_mapping.length = configsC4.length
      ∧ p.summary.total_mappings = configsC4.length
      ∧ (∀ i : Nat, p.results_by_mapping[i]? =
          (configsC4[i]?).map (fun c => processScd "p" envC4 (configToMapping c)))
      ∧ (∀ r ∈ p.results_by_mapping, r.error ≠ none → r.predefined_results = [])
      ∧ p.summary.total_tests =
          (p.results_by_mapping.map (fun r => r.predefined_results.length)).sum
      ∧ p.summary.passed = (p.results_by_mapping.map (countStatus .PASS)).sum
      ∧ p.summary.failed = (p.results_by_mapping.map (countStatus .FAIL)).sum
      ∧ p.summary.errors = (p.results_by_mapping.map (countStatus .ERROR)).sum
      ∧ (∀ l, l.Perm p.results_by_mapping →
          batchSummaryOf l = batchSummaryOf p.results_by_mapping)) :=
  ⟨by simp [configsC4], batch_contract "p" envC4 configsC4 (by simp [configsC4])⟩

/-- C10: when the caller's mapping dict holds `enabled_test_ids` bound to
an empty list and the run reaches the selection step, `process_scd`
appends the auto-selected ids to that same list in place, so after the
call the caller's configuration holds the derived (non-empty) id list;
a second call on the same mapping object takes the non-empty branch —
skipping auto-selection — reuses exactly that stored list, and leaves
the mapping unchanged. -/
theorem process_scd_mutates_caller_mapping (pid : String) (env : ScdEnv) (m : ScdMapping)
    (hids : m.enabled_test_ids = some [])
    (hmeta : env.table_metadata (scdFullTableName pid m) = .ok ()) :
    ((processScdFull pid env m).2).enabled_test_ids
        = some (scdAutoSelectIds m.surrogate_key (m.scd_type.getD "scd2"))
    ∧ scdAutoSelectIds m.surrogate_key (m.scd_type.getD "scd2") ≠ []
    ∧ scdSelection (processScdFull pid env m).2 =
        (scdAutoSelectIds m.surrogate_key (m.scd_type.getD "scd2"),
         (processScdFull pid env m).2)
    ∧ (processScdFull pid env ((processScdFull pid env m).2)).2 =
        (processScdFull pid env m).2 := by
  have hne : scdAutoSelectIds m.surrogate_key (m.scd_type.getD "scd2") ≠ [] := by
    intro hc
    simp [scdAutoSelectIds] at hc
  have hm2 : (processScdFull pid env m).2 =
      { m with enabled_test_ids := some (scdAutoSelectIds m.surrogate_key
          (m.scd_type.getD "scd2")) } := by
    simp [processScdFull, hmeta, scdSelection, hids]
  have hne2 : (scdAutoSelectIds m.surrogate_key (m.scd_type.getD "scd2")).isEmpty = false := by
    cases hc : scdAutoSelectIds m.surrogate_key (m.scd_type.getD "scd2") with
    | nil => exact absurd hc hne
    | cons a l => rfl
  refine ⟨by rw [hm2], hne, ?_, ?_⟩
  · rw [hm2]
    simp [scdSelection, hne2]
  · rw [hm2]
    have hmeta2 : env.table_metadata (scdFullTableName pid
        { m with enabled_test_ids := some (scdAutoSelectIds m.surrogate_key
            (m.scd_type.getD "scd2")) }) = .ok () :=
      hmeta
    simp [processScdFull, hmeta2, scdSelection, hne2]

/-- Witness for C10: the mutation theorem applied to a concrete SCD1
mapping holding an aliased empty id list. -/
theorem process_scd_mutates_caller_mapping_witness :
    m10.enabled_test_ids = some []
    ∧ envOneRowS.table_metadata (scdFullTableName "p" m10) = .ok ()
    ∧ ((processScdFull "p" envOneRowS m10).2).enabled_test_ids
        = some (scdAutoSelectIds m10.surrogate_key (m10.scd_type.getD "scd2")) :=
  ⟨rfl, rfl, (process_scd_mutates_caller_mapping "p" envOneRowS m10 rfl rfl).1⟩
